import Mathlib

/-! HandGestureWebAPP: the gesture dispatch and stroke engine of `script.js`.

A shallow embedding of the class `HandGestureDrawing` of `src/script.js`.

* JavaScript numbers are modelled by rationals (exact arithmetic, no
  rounding, no `NaN`).
* The fields of `this` that the gesture pipeline reads or writes form the
  record `State`; the sizes of the two canvases and the drawing context's
  style registers are part of it.
* Calls to the drawing surface and to the page (mode label, status line) are
  returned as a list of `Event`s, in the order the code issues them.
* `landmarks[i]` on an index past the end of the array is `undefined` in
  JavaScript and reading `.x` / `.y` of it throws a `TypeError`; a thrown
  error is the result `none`. The only reads are in `getFingersUp` and
  `getHandCenter`, which `processHandGesture` calls before it writes any field
  or draws, so a frame that throws has changed nothing.
-/

namespace HandGesture

/-- One tracked hand point `{x, y, z}`. -/
structure Landmark where
  x : ℚ
  y : ℚ
  z : ℚ
deriving DecidableEq, Repr

/-- The object `{x, y}` returned by `getHandCenter`. -/
structure Point where
  x : ℚ
  y : ℚ
deriving DecidableEq, Repr

/-- The mutable fields of `HandGestureDrawing` used by the gesture pipeline
(constructor, lines 9-18), the canvas sizes (`setupCanvases`) and the style
registers of `drawingCtx`. -/
structure State where
  isDrawing : Bool
  isErasing : Bool
  lastX : ℚ
  lastY : ℚ
  currentMode : String
  brushSize : ℚ
  brushColor : String
  handWidth : ℚ
  handHeight : ℚ
  drawingWidth : ℚ
  drawingHeight : ℚ
  lineWidth : ℚ
  lineCap : String
  strokeStyle : String
  fillStyle : String
deriving DecidableEq, Repr

/-- What the code sends out: primitives on `drawingCtx` and updates of the page. -/
inductive Event where
  /-- The sequence `beginPath(); moveTo(fromX, fromY); lineTo(toX, toY); stroke()`
  under the given `lineWidth`, `strokeStyle` and `lineCap`. -/
  | stroke (fromX fromY toX toY lineWidth : ℚ) (strokeStyle lineCap : String)
  /-- The sequence `beginPath(); arc(x, y, radius, 0, 2π); fill()`. -/
  | fillArc (x y radius : ℚ) (fillStyle : String)
  /-- The call `fillRect(x, y, w, h)`. -/
  | fillRect (x y w h : ℚ) (fillStyle : String)
  /-- The update of the `currentMode` element: `textContent` and `className`. -/
  | modeElement (textContent className : String)
  /-- The call `updateStatus(message)`. -/
  | status (message : String)
deriving DecidableEq, Repr

/-- The state after the constructor and `setupCanvases` have run
(lines 9-18 and 44-52); the context registers are the canvas defaults, with
`fillStyle` left at `#FFFFFF` by the first `clearDrawingCanvas`. -/
def initialState : State :=
  { isDrawing := false, isErasing := false, lastX := 0, lastY := 0,
    currentMode := "drawing", brushSize := 10, brushColor := "#ff0000",
    handWidth := 640, handHeight := 480, drawingWidth := 800, drawingHeight := 600,
    lineWidth := 1, lineCap := "butt", strokeStyle := "#000000", fillStyle := "#FFFFFF" }

/-! ## Landmark geometry (lines 189-220) -/

def fingerTips : List Nat := [8, 12, 16, 20]

def fingerPips : List Nat := [6, 10, 14, 18]

/-- `getFingersUp` (lines 189-204): the thumb is pushed first, then the loop
`for (let i = 0; i < 4; i++)` pushes the other four fingers. -/
def getFingersUp (landmarks : List Landmark) : Option (List Bool) := do
  let tip ← landmarks[4]?
  let joint ← landmarks[3]?
  let fingers : List Bool := [decide (tip.y < joint.y)]
  [0, 1, 2, 3].foldlM
    (fun (fingers : List Bool) (i : Nat) => do
      let ti ← fingerTips[i]?
      let pi ← fingerPips[i]?
      let t ← landmarks[ti]?
      let p ← landmarks[pi]?
      pure (fingers ++ [decide (t.y < p.y)]))
    fingers

def palmPoints : List Nat := [0, 1, 5, 9, 13, 17]

/-- `getHandCenter` (lines 206-220). -/
def getHandCenter (s : State) (landmarks : List Landmark) : Option Point := do
  let sums ← palmPoints.foldlM
    (fun (acc : ℚ × ℚ) (index : Nat) => do
      let p ← landmarks[index]?
      pure (acc.1 + p.x * s.handWidth, acc.2 + p.y * s.handHeight))
    ((0 : ℚ), (0 : ℚ))
  pure { x := sums.1 / palmPoints.length, y := sums.2 / palmPoints.length }

/-! ## Gesture predicates (lines 222-245)

`fingers[i]` past the end of a JavaScript array is `undefined`, which is falsy. -/

def isPeaceSign (fingers : List Bool) : Bool :=
  fingers.getD 1 false && fingers.getD 2 false && !fingers.getD 3 false && !fingers.getD 4 false

def isFist (fingers : List Bool) : Bool :=
  !fingers.getD 0 false && !fingers.getD 1 false && !fingers.getD 2 false &&
    !fingers.getD 3 false && !fingers.getD 4 false

def isThumbsUp (fingers : List Bool) : Bool :=
  fingers.getD 0 false && !fingers.getD 1 false && !fingers.getD 2 false &&
    !fingers.getD 3 false && !fingers.getD 4 false

def isOpenPalm (fingers : List Bool) : Bool :=
  fingers.getD 0 false && fingers.getD 1 false && fingers.getD 2 false &&
    fingers.getD 3 false && fingers.getD 4 false

def isPointing (fingers : List Bool) : Bool :=
  !fingers.getD 0 false && fingers.getD 1 false && !fingers.getD 2 false &&
    !fingers.getD 3 false && !fingers.getD 4 false

/-! ## Mode and stroke operations (lines 247-314) -/

/-- The text `mode.charAt(0).toUpperCase() + mode.slice(1)`: the first
character in upper case, the rest unchanged (the empty string stays empty).
The three modes the code uses are lower-case ASCII words. -/
def capitalizeFirst (mode : String) : String :=
  match mode.data with
  | [] => ""
  | c :: rest => String.mk (c.toUpper :: rest)

/-- `setMode` (lines 247-254). -/
def setMode (s : State) (mode : String) : State × List Event :=
  if s.currentMode ≠ mode then
    ({ s with currentMode := mode },
      [Event.modeElement (capitalizeFirst mode) ("mode " ++ mode)])
  else
    (s, [])

/-- `startDrawing` (lines 256-259). -/
def startDrawing (s : State) (x y : ℚ) : State :=
  { s with isDrawing := true, lastX := x, lastY := y }

/-- `stopDrawing` (lines 261-264). -/
def stopDrawing (s : State) : State :=
  { s with isDrawing := false, isErasing := false }

/-- `drawAtPosition` (lines 266-282). -/
def drawAtPosition (s : State) (x y : ℚ) : State × List Event :=
  if !s.isDrawing then
    (startDrawing s x y, [])
  else
    let s1 := { s with lineWidth := s.brushSize, lineCap := "round", strokeStyle := s.brushColor }
    ({ s1 with lastX := x, lastY := y },
      [Event.stroke s1.lastX s1.lastY x y s1.lineWidth s1.strokeStyle s1.lineCap])

/-- `eraseAtPosition` (lines 284-301). -/
def eraseAtPosition (s : State) (x y : ℚ) : State × List Event :=
  if !s.isErasing then
    ({ s with isErasing := true, lastX := x, lastY := y }, [])
  else
    let s1 := { s with lineWidth := s.brushSize * 2, lineCap := "round", strokeStyle := "#FFFFFF" }
    ({ s1 with lastX := x, lastY := y },
      [Event.stroke s1.lastX s1.lastY x y s1.lineWidth s1.strokeStyle s1.lineCap])

/-- `drawPoint` (lines 303-308). -/
def drawPoint (s : State) (x y : ℚ) : State × List Event :=
  let s1 := { s with fillStyle := s.brushColor }
  (s1, [Event.fillArc x y (s.brushSize / 2) s1.fillStyle])

/-- `clearDrawingCanvas` (lines 310-314). -/
def clearDrawingCanvas (s : State) : State × List Event :=
  let s1 := { s with fillStyle := "#FFFFFF" }
  (s1, [Event.fillRect 0 0 s1.drawingWidth s1.drawingHeight s1.fillStyle,
        Event.status "Canvas cleared!"])

/-! ## The per-frame pipeline (lines 151-187) -/

/-- `processHandGesture` (lines 151-187). -/
def processHandGesture (s : State) (landmarks : List Landmark) : Option (State × List Event) := do
  let fingersUp ← getFingersUp landmarks
  let handCenter ← getHandCenter s landmarks
  let drawingX := (handCenter.x / s.handWidth) * s.drawingWidth
  let drawingY := (handCenter.y / s.handHeight) * s.drawingHeight
  let r : State × List Event :=
    if isPeaceSign fingersUp then
      let a := setMode s "drawing"
      let b := drawAtPosition a.1 drawingX drawingY
      (b.1, a.2 ++ b.2)
    else if isFist fingersUp then
      let a := setMode s "erasing"
      let b := eraseAtPosition a.1 drawingX drawingY
      (b.1, a.2 ++ b.2)
    else if isThumbsUp fingersUp then
      let a := clearDrawingCanvas s
      let b := setMode a.1 "inactive"
      (b.1, a.2 ++ b.2)
    else if isOpenPalm fingersUp then
      let a := stopDrawing s
      let b := setMode a "inactive"
      (b.1, b.2)
    else if isPointing fingersUp then
      let a := setMode s "drawing"
      let b := drawPoint a.1 drawingX drawingY
      (b.1, a.2 ++ b.2)
    else
      (stopDrawing s, [])
  pure ({ r.1 with lastX := drawingX, lastY := drawingY }, r.2)


/-! ## Reading the pipeline: gesture, mapped point, emitted segments -/

/-- The six outcomes of the dispatch of `processHandGesture`. -/
inductive Gesture where
  | PeaceSign
  | Fist
  | ThumbsUp
  | OpenPalm
  | Pointing
  | None
deriving DecidableEq, Repr

/-- The branch that the `if / else if` chain of lines 160-182 takes, in the
order of the source. -/
def classify (fingers : List Bool) : Gesture :=
  if isPeaceSign fingers then Gesture.PeaceSign
  else if isFist fingers then Gesture.Fist
  else if isThumbsUp fingers then Gesture.ThumbsUp
  else if isOpenPalm fingers then Gesture.OpenPalm
  else if isPointing fingers then Gesture.Pointing
  else Gesture.None

/-- The body of each branch of lines 160-182, before the anchor update of
lines 185-186. -/
def branch (g : Gesture) (s : State) (x y : ℚ) : State × List Event :=
  match g with
  | Gesture.PeaceSign =>
      ((drawAtPosition (setMode s "drawing").1 x y).1,
        (setMode s "drawing").2 ++ (drawAtPosition (setMode s "drawing").1 x y).2)
  | Gesture.Fist =>
      ((eraseAtPosition (setMode s "erasing").1 x y).1,
        (setMode s "erasing").2 ++ (eraseAtPosition (setMode s "erasing").1 x y).2)
  | Gesture.ThumbsUp =>
      ((setMode (clearDrawingCanvas s).1 "inactive").1,
        (clearDrawingCanvas s).2 ++ (setMode (clearDrawingCanvas s).1 "inactive").2)
  | Gesture.OpenPalm => setMode (stopDrawing s) "inactive"
  | Gesture.Pointing =>
      ((drawPoint (setMode s "drawing").1 x y).1,
        (setMode s "drawing").2 ++ (drawPoint (setMode s "drawing").1 x y).2)
  | Gesture.None => (stopDrawing s, [])

/-- The gesture a landmark set is classified as (lines 152 and 160-182). -/
def gestureOf (landmarks : List Landmark) : Option Gesture :=
  (getFingersUp landmarks).map classify

/-- The point `(drawingX, drawingY)` of lines 153-157. -/
def mappedPoint (s : State) (landmarks : List Landmark) : Option Point :=
  (getHandCenter s landmarks).map fun handCenter =>
    { x := (handCenter.x / s.handWidth) * s.drawingWidth,
      y := (handCenter.y / s.handHeight) * s.drawingHeight }

/-- Whether an event is a primitive on the drawing surface. -/
def Event.isSurface : Event → Bool
  | Event.stroke _ _ _ _ _ _ _ => true
  | Event.fillArc _ _ _ _ => true
  | Event.fillRect _ _ _ _ _ => true
  | Event.modeElement _ _ => false
  | Event.status _ => false

/-- Whether an event is a line segment. -/
def Event.isSegment : Event → Bool
  | Event.stroke _ _ _ _ _ _ _ => true
  | _ => false

/-- The line segments among the events, in order. -/
def segments (events : List Event) : List Event :=
  events.filter Event.isSegment

/-- Consecutive frames: `processHandGesture` on each landmark set in turn,
collecting the events of every frame. -/
def processFrames (s : State) : List (List Landmark) → Option (State × List (List Event))
  | [] => some (s, [])
  | landmarks :: rest => do
      let r ← processHandGesture s landmarks
      let t ← processFrames r.1 rest
      pure (t.1, r.2 :: t.2)

/-! ## The rule table of the dispatch -/

/-- The five checks of lines 160-176 with the gesture each one selects, in the
order of the source. -/
def gestureRules : List ((List Bool → Bool) × Gesture) :=
  [(isPeaceSign, Gesture.PeaceSign), (isFist, Gesture.Fist), (isThumbsUp, Gesture.ThumbsUp),
   (isOpenPalm, Gesture.OpenPalm), (isPointing, Gesture.Pointing)]

/-- An `if / else if` chain over a list of checks taken in the given order:
the first check that holds selects the gesture, and `None` is the final `else`. -/
def firstMatch : List ((List Bool → Bool) × Gesture) → List Bool → Gesture
  | [], _ => Gesture.None
  | rule :: rest, fingers => if rule.1 fingers then rule.2 else firstMatch rest fingers

/-- The 32 finger states `[thumb, index, middle, ring, pinky]`. -/
def allFingerStates : List (List Bool) :=
  [false, true].flatMap fun thumb =>
  [false, true].flatMap fun index =>
  [false, true].flatMap fun middle =>
  [false, true].flatMap fun ring =>
  [false, true].flatMap fun pinky => [[thumb, index, middle, ring, pinky]]

/-! ## Coordinate mapping, several hands, brush size -/

/-- The rescale of lines 156-157 as a function of the point and of the four
sizes: `outX = point.x / fromWidth * toWidth`, `outY = point.y / fromHeight * toHeight`. -/
def mapToSurface (point : Point) (fromWidth fromHeight toWidth toHeight : ℚ) : Point :=
  { x := (point.x / fromWidth) * toWidth, y := (point.y / fromHeight) * toHeight }

/-- `onHandResults` (lines 125-149): when `results.multiHandLandmarks` is present
(`some`), every landmark set of the frame is passed in order to
`processHandGesture`, on the one shared state. The calls on `handCtx` (the
overlay canvas: `save`, `clearRect`, `drawImage`, `drawConnectors`,
`drawLandmarks`, `restore`) touch neither the state nor the drawing canvas and
are not recorded. -/
def onHandResults (s : State) (multiHandLandmarks : Option (List (List Landmark))) :
    Option (State × List (List Event)) :=
  match multiHandLandmarks with
  | none => some (s, [])
  | some hands => processFrames s hands

/-- The `input` listener of the brush-size control (lines 76-79), given the
integer that `parseInt` returns. -/
def onBrushSizeInput (s : State) (value : ℤ) : State :=
  { s with brushSize := value }

/-! ## Sample hands -/

/-- A 21-point hand whose palm-base points all sit at `(cx, cy)`, whose joints
have `y = 1/2`, and whose five fingertips have `y = 1/4` when the finger is
extended and `y = 3/4` when it is folded. -/
def sampleHand (thumb index middle ring pinky : Bool) (cx cy : ℚ) : List Landmark :=
  let palm : Landmark := { x := cx, y := cy, z := 0 }
  let joint : Landmark := { x := cx, y := 1 / 2, z := 0 }
  let tip (up : Bool) : Landmark := { x := cx, y := if up then 1 / 4 else 3 / 4, z := 0 }
  [palm, palm, joint, joint, tip thumb,
   palm, joint, joint, tip index,
   palm, joint, joint, tip middle,
   palm, joint, joint, tip ring,
   palm, joint, joint, tip pinky]

/-- The frame step once the gesture and the mapped point are known: the branch
body followed by the anchor update of lines 185-186. -/
def frameStep (g : Gesture) (s : State) (P : Point) : State × List Event :=
  ({ (branch g s P.x P.y).1 with lastX := P.x, lastY := P.y }, (branch g s P.x P.y).2)

/-! # Theorems -/

/-! ## The pipeline in terms of gesture and mapped point -/

theorem processHandGesture_eq_frameStep (s : State) (landmarks : List Landmark) :
    processHandGesture s landmarks =
      (gestureOf landmarks).bind fun g =>
        (mappedPoint s landmarks).bind fun P => some (frameStep g s P) := by
  unfold processHandGesture gestureOf mappedPoint
  cases hf : getFingersUp landmarks with
  | none => simp
  | some f =>
    cases hc : getHandCenter s landmarks with
    | none => simp
    | some c =>
      simp only [Option.bind_eq_bind, Option.some_bind, Option.map_some', Option.pure_def,
        frameStep, classify]
      split_ifs <;> simp [branch]

theorem processHandGesture_of (s : State) (landmarks : List Landmark) (g : Gesture) (P : Point)
    (hg : gestureOf landmarks = some g) (hp : mappedPoint s landmarks = some P) :
    processHandGesture s landmarks = some (frameStep g s P) := by
  rw [processHandGesture_eq_frameStep, hg, hp]; rfl

/-- The mapped point reads only the four canvas sizes of the state. -/
theorem mappedPoint_congr (s t : State) (landmarks : List Landmark)
    (h1 : t.handWidth = s.handWidth) (h2 : t.handHeight = s.handHeight)
    (h3 : t.drawingWidth = s.drawingWidth) (h4 : t.drawingHeight = s.drawingHeight) :
    mappedPoint t landmarks = mappedPoint s landmarks := by
  simp [mappedPoint, getHandCenter, h1, h2, h3, h4]

/-- A frame changes neither the canvas sizes nor the brush configuration. -/
theorem frameStep_config (g : Gesture) (s : State) (P : Point) :
    (frameStep g s P).1.handWidth = s.handWidth ∧
    (frameStep g s P).1.handHeight = s.handHeight ∧
    (frameStep g s P).1.drawingWidth = s.drawingWidth ∧
    (frameStep g s P).1.drawingHeight = s.drawingHeight ∧
    (frameStep g s P).1.brushSize = s.brushSize ∧
    (frameStep g s P).1.brushColor = s.brushColor := by
  cases g <;>
    simp only [frameStep, branch, setMode, drawAtPosition, eraseAtPosition, drawPoint,
      clearDrawingCanvas, stopDrawing, startDrawing] <;>
    first
      | (split_ifs <;> simp)
      | simp

theorem mappedPoint_frameStep (g : Gesture) (s : State) (P : Point) (landmarks : List Landmark) :
    mappedPoint (frameStep g s P).1 landmarks = mappedPoint s landmarks := by
  obtain ⟨h1, h2, h3, h4, _, _⟩ := frameStep_config g s P
  exact mappedPoint_congr s _ landmarks h1 h2 h3 h4

/-- A PeaceSign frame with the pen up: pen-down, anchor recorded, nothing drawn. -/
theorem frameStep_peace_up (s : State) (P : Point) (h : s.isDrawing = false) :
    (frameStep Gesture.PeaceSign s P).1.isDrawing = true ∧
    (frameStep Gesture.PeaceSign s P).1.isErasing = s.isErasing ∧
    (frameStep Gesture.PeaceSign s P).1.lastX = P.x ∧
    (frameStep Gesture.PeaceSign s P).1.lastY = P.y ∧
    (frameStep Gesture.PeaceSign s P).1.currentMode = "drawing" ∧
    (frameStep Gesture.PeaceSign s P).2 = (setMode s "drawing").2 ∧
    (frameStep Gesture.PeaceSign s P).2.filter Event.isSurface = [] := by
  simp only [frameStep, branch, setMode, drawAtPosition, startDrawing]
  split_ifs <;> simp_all [Event.isSurface]

/-- A PeaceSign frame with the pen down: one segment from the anchor. -/
theorem frameStep_peace_down (s : State) (P : Point) (h : s.isDrawing = true) :
    (frameStep Gesture.PeaceSign s P).1.isDrawing = true ∧
    (frameStep Gesture.PeaceSign s P).1.isErasing = s.isErasing ∧
    (frameStep Gesture.PeaceSign s P).1.lastX = P.x ∧
    (frameStep Gesture.PeaceSign s P).1.lastY = P.y ∧
    (frameStep Gesture.PeaceSign s P).1.currentMode = "drawing" ∧
    (frameStep Gesture.PeaceSign s P).2 = (setMode s "drawing").2 ++
      [Event.stroke s.lastX s.lastY P.x P.y s.brushSize s.brushColor "round"] := by
  simp only [frameStep, branch, setMode, drawAtPosition, startDrawing]
  split_ifs <;> simp_all

theorem setMode_same (s : State) (mode : String) (h : s.currentMode = mode) :
    setMode s mode = (s, []) := by
  simp [setMode, h]

/-! ## Facts about the sample hands -/

theorem sampleHand_tip (up : Bool) :
    decide ((if up = true then (4 : ℚ)⁻¹ else 3 / 4) < 2⁻¹) = up := by
  cases up <;> norm_num

theorem getFingersUp_sampleHand (thumb index middle ring pinky : Bool) (cx cy : ℚ) :
    getFingersUp (sampleHand thumb index middle ring pinky cx cy) =
      some [thumb, index, middle, ring, pinky] := by
  simp [getFingersUp, sampleHand, fingerTips, fingerPips]
  exact ⟨sampleHand_tip _, sampleHand_tip _, sampleHand_tip _, sampleHand_tip _,
    sampleHand_tip _⟩

theorem gestureOf_sampleHand (thumb index middle ring pinky : Bool) (cx cy : ℚ) :
    gestureOf (sampleHand thumb index middle ring pinky cx cy) =
      some (classify [thumb, index, middle, ring, pinky]) := by
  rw [gestureOf, getFingersUp_sampleHand]; rfl

theorem mappedPoint_sampleHand (thumb index middle ring pinky : Bool) (cx cy : ℚ) :
    mappedPoint initialState (sampleHand thumb index middle ring pinky cx cy) =
      some { x := 800 * cx, y := 600 * cy } := by
  have h : getHandCenter initialState (sampleHand thumb index middle ring pinky cx cy) =
      some { x := (0 + cx * 640 + cx * 640 + cx * 640 + cx * 640 + cx * 640 + cx * 640) / 6,
             y := (0 + cy * 480 + cy * 480 + cy * 480 + cy * 480 + cy * 480 + cy * 480) / 6 } := by
    simp [getHandCenter, sampleHand, palmPoints, initialState]
  rw [mappedPoint, h]
  simp only [Option.map_some', initialState, Option.some.injEq, Point.mk.injEq]
  constructor <;> ring

/-! ## C1: stroke continuity -/

/-- C1. From any state with the draw tool inactive, three consecutive frames
classified as PeaceSign with mapped points P1, P2, P3 all succeed; the first
frame emits no surface primitive, the second emits exactly the segment
P1 -> P2 and the third exactly the segment P2 -> P3, each with the brush size
and colour of the state and round caps; these are the only two segments. -/
theorem stroke_continuity (s0 : State) (l1 l2 l3 : List Landmark) (P1 P2 P3 : Point)
    (h0 : s0.isDrawing = false)
    (g1 : gestureOf l1 = some Gesture.PeaceSign)
    (g2 : gestureOf l2 = some Gesture.PeaceSign)
    (g3 : gestureOf l3 = some Gesture.PeaceSign)
    (p1 : mappedPoint s0 l1 = some P1)
    (p2 : mappedPoint s0 l2 = some P2)
    (p3 : mappedPoint s0 l3 = some P3) :
    ∃ s3 e1 e2 e3,
      processFrames s0 [l1, l2, l3] = some (s3, [e1, e2, e3]) ∧
      e1.filter Event.isSurface = [] ∧
      e2 = [Event.stroke P1.x P1.y P2.x P2.y s0.brushSize s0.brushColor "round"] ∧
      e3 = [Event.stroke P2.x P2.y P3.x P3.y s0.brushSize s0.brushColor "round"] ∧
      segments (e1 ++ e2 ++ e3) =
        [Event.stroke P1.x P1.y P2.x P2.y s0.brushSize s0.brushColor "round",
         Event.stroke P2.x P2.y P3.x P3.y s0.brushSize s0.brushColor "round"] := by
  have d1 := processHandGesture_of s0 l1 _ _ g1 p1
  obtain ⟨a1, _, a3, a4, a5, a6, a7⟩ := frameStep_peace_up s0 P1 h0
  obtain ⟨_, _, _, _, c5, c6⟩ := frameStep_config Gesture.PeaceSign s0 P1
  have q2 : mappedPoint (frameStep Gesture.PeaceSign s0 P1).1 l2 = some P2 := by
    rw [mappedPoint_frameStep]; exact p2
  have d2 := processHandGesture_of _ l2 _ _ g2 q2
  obtain ⟨b1, _, b3, b4, b5, b6⟩ := frameStep_peace_down (frameStep Gesture.PeaceSign s0 P1).1 P2 a1
  obtain ⟨_, _, _, _, c7, c8⟩ :=
    frameStep_config Gesture.PeaceSign (frameStep Gesture.PeaceSign s0 P1).1 P2
  have q3 : mappedPoint
      (frameStep Gesture.PeaceSign (frameStep Gesture.PeaceSign s0 P1).1 P2).1 l3 = some P3 := by
    rw [mappedPoint_frameStep, mappedPoint_frameStep]; exact p3
  have d3 := processHandGesture_of _ l3 _ _ g3 q3
  obtain ⟨_, _, _, _, _, e6⟩ :=
    frameStep_peace_down (frameStep Gesture.PeaceSign (frameStep Gesture.PeaceSign s0 P1).1 P2).1 P3 b1
  rw [setMode_same _ _ a5, a3, a4, c5, c6] at b6
  rw [setMode_same _ _ b5, b3, b4, c7, c8, c5, c6] at e6
  have hseg : segments (frameStep Gesture.PeaceSign s0 P1).2 = [] := by
    rw [a6]; unfold setMode; split_ifs <;> simp [segments, Event.isSegment]
  refine ⟨(frameStep Gesture.PeaceSign
      (frameStep Gesture.PeaceSign (frameStep Gesture.PeaceSign s0 P1).1 P2).1 P3).1,
    (frameStep Gesture.PeaceSign s0 P1).2, _, _, ?_, a7, b6, e6, ?_⟩
  · simp [processFrames, d1, d2, d3]
  · have := hseg
    simp only [segments, List.filter_append] at this ⊢
    rw [this, b6, e6]
    simp [Event.isSegment]

/-- Witness for C1: three PeaceSign hands at (200,150), (400,300), (600,450)
from the initial state. -/
theorem stroke_continuity_witness :
    initialState.isDrawing = false ∧
    gestureOf (sampleHand false true true false false (1/4) (1/4)) = some Gesture.PeaceSign ∧
    gestureOf (sampleHand true true true false false (1/2) (1/2)) = some Gesture.PeaceSign ∧
    gestureOf (sampleHand false true true false false (3/4) (3/4)) = some Gesture.PeaceSign ∧
    ∃ s3 e1 e2 e3,
      processFrames initialState
        [sampleHand false true true false false (1/4) (1/4),
         sampleHand true true true false false (1/2) (1/2),
         sampleHand false true true false false (3/4) (3/4)] = some (s3, [e1, e2, e3]) ∧
      e1.filter Event.isSurface = [] ∧
      e2 = [Event.stroke 200 150 400 300 10 "#ff0000" "round"] ∧
      e3 = [Event.stroke 400 300 600 450 10 "#ff0000" "round"] ∧
      segments (e1 ++ e2 ++ e3) =
        [Event.stroke 200 150 400 300 10 "#ff0000" "round",
         Event.stroke 400 300 600 450 10 "#ff0000" "round"] :=
  ⟨rfl, by rw [gestureOf_sampleHand]; rfl, by rw [gestureOf_sampleHand]; rfl,
    by rw [gestureOf_sampleHand]; rfl,
    stroke_continuity initialState _ _ _ ⟨200, 150⟩ ⟨400, 300⟩ ⟨600, 450⟩ rfl
      (by rw [gestureOf_sampleHand]; rfl) (by rw [gestureOf_sampleHand]; rfl)
      (by rw [gestureOf_sampleHand]; rfl)
      (by rw [mappedPoint_sampleHand]; norm_num)
      (by rw [mappedPoint_sampleHand]; norm_num)
      (by rw [mappedPoint_sampleHand]; norm_num)⟩

/-- A Fist frame with the eraser up: eraser down, anchor recorded, nothing drawn. -/
theorem frameStep_fist_up (s : State) (P : Point) (h : s.isErasing = false) :
    (frameStep Gesture.Fist s P).1.isErasing = true ∧
    (frameStep Gesture.Fist s P).1.isDrawing = s.isDrawing ∧
    (frameStep Gesture.Fist s P).1.lastX = P.x ∧
    (frameStep Gesture.Fist s P).1.lastY = P.y ∧
    (frameStep Gesture.Fist s P).2.filter Event.isSurface = [] := by
  simp only [frameStep, branch, setMode, eraseAtPosition]
  split_ifs <;> simp_all [Event.isSurface]

/-- An OpenPalm frame or an unmatched frame lifts both tools and draws nothing. -/
theorem frameStep_stop (g : Gesture) (s : State) (P : Point)
    (hg : g = Gesture.OpenPalm ∨ g = Gesture.None) :
    (frameStep g s P).1.isDrawing = false ∧
    (frameStep g s P).1.isErasing = false ∧
    (frameStep g s P).1.lastX = P.x ∧
    (frameStep g s P).1.lastY = P.y ∧
    (frameStep g s P).2.filter Event.isSurface = [] := by
  rcases hg with rfl | rfl
  · simp only [frameStep, branch, setMode, stopDrawing]
    split_ifs <;> simp [Event.isSurface]
  · simp [frameStep, branch, stopDrawing]

/-- Every segment is a surface primitive. -/
theorem segments_eq_nil_of_surface (events : List Event)
    (h : events.filter Event.isSurface = []) : segments events = [] := by
  simp only [segments, List.filter_eq_nil_iff] at h ⊢
  intro e he hs
  apply h e he
  cases e <;> simp_all [Event.isSurface, Event.isSegment]

/-! ## C2: pen-down reset -/

/-- C2 (amended). From any state with the draw tool inactive, a PeaceSign frame
at P1, then an OpenPalm frame, then a PeaceSign frame at P2 all succeed and
emit no surface primitive, hence no segment at all (zero, not one); the second
PeaceSign frame is a fresh pen-down: it emits nothing on the surface, sets the
pen down and records P2 as the anchor. -/
theorem pen_down_reset (s0 : State) (l1 l2 l3 : List Landmark) (P1 Q P2 : Point)
    (h0 : s0.isDrawing = false)
    (g1 : gestureOf l1 = some Gesture.PeaceSign)
    (g2 : gestureOf l2 = some Gesture.OpenPalm)
    (g3 : gestureOf l3 = some Gesture.PeaceSign)
    (p1 : mappedPoint s0 l1 = some P1)
    (p2 : mappedPoint s0 l2 = some Q)
    (p3 : mappedPoint s0 l3 = some P2) :
    ∃ s3 e1 e2 e3,
      processFrames s0 [l1, l2, l3] = some (s3, [e1, e2, e3]) ∧
      (e1 ++ e2 ++ e3).filter Event.isSurface = [] ∧
      segments (e1 ++ e2 ++ e3) = [] ∧
      segments e3 = [] ∧
      s3.isDrawing = true ∧ s3.lastX = P2.x ∧ s3.lastY = P2.y := by
  have d1 := processHandGesture_of s0 l1 _ _ g1 p1
  obtain ⟨_, _, _, _, _, _, a7⟩ := frameStep_peace_up s0 P1 h0
  have q2 : mappedPoint (frameStep Gesture.PeaceSign s0 P1).1 l2 = some Q := by
    rw [mappedPoint_frameStep]; exact p2
  have d2 := processHandGesture_of _ l2 _ _ g2 q2
  obtain ⟨b1, _, _, _, b5⟩ :=
    frameStep_stop Gesture.OpenPalm (frameStep Gesture.PeaceSign s0 P1).1 Q (Or.inl rfl)
  have q3 : mappedPoint
      (frameStep Gesture.OpenPalm (frameStep Gesture.PeaceSign s0 P1).1 Q).1 l3 = some P2 := by
    rw [mappedPoint_frameStep, mappedPoint_frameStep]; exact p3
  have d3 := processHandGesture_of _ l3 _ _ g3 q3
  obtain ⟨c1, _, c3, c4, _, _, c7⟩ := frameStep_peace_up
    (frameStep Gesture.OpenPalm (frameStep Gesture.PeaceSign s0 P1).1 Q).1 P2 b1
  have hall : ((frameStep Gesture.PeaceSign s0 P1).2 ++
      (frameStep Gesture.OpenPalm (frameStep Gesture.PeaceSign s0 P1).1 Q).2 ++
      (frameStep Gesture.PeaceSign
        (frameStep Gesture.OpenPalm (frameStep Gesture.PeaceSign s0 P1).1 Q).1 P2).2).filter
      Event.isSurface = [] := by
    rw [List.filter_append, List.filter_append, a7, b5, c7]; rfl
  refine ⟨(frameStep Gesture.PeaceSign
      (frameStep Gesture.OpenPalm (frameStep Gesture.PeaceSign s0 P1).1 Q).1 P2).1,
    _, _, _, ?_, hall, segments_eq_nil_of_surface _ hall,
    segments_eq_nil_of_surface _ c7, c1, c3, c4⟩
  simp [processFrames, d1, d2, d3]

/-- Witness for C2 (amended): PeaceSign at (200,150), an open palm, PeaceSign at
(600,450), from the initial state. -/
theorem pen_down_reset_witness :
    initialState.isDrawing = false ∧
    gestureOf (sampleHand false true true false false (1/4) (1/4)) = some Gesture.PeaceSign ∧
    gestureOf (sampleHand true true true true true (1/2) (1/2)) = some Gesture.OpenPalm ∧
    gestureOf (sampleHand false true true false false (3/4) (3/4)) = some Gesture.PeaceSign ∧
    ∃ s3 e1 e2 e3,
      processFrames initialState
        [sampleHand false true true false false (1/4) (1/4),
         sampleHand true true true true true (1/2) (1/2),
         sampleHand false true true false false (3/4) (3/4)] = some (s3, [e1, e2, e3]) ∧
      (e1 ++ e2 ++ e3).filter Event.isSurface = [] ∧
      segments (e1 ++ e2 ++ e3) = [] ∧
      segments e3 = [] ∧
      s3.isDrawing = true ∧ s3.lastX = 600 ∧ s3.lastY = 450 :=
  ⟨rfl, by rw [gestureOf_sampleHand]; rfl, by rw [gestureOf_sampleHand]; rfl,
    by rw [gestureOf_sampleHand]; rfl,
    pen_down_reset initialState _ _ _ ⟨200, 150⟩ ⟨400, 300⟩ ⟨600, 450⟩ rfl
      (by rw [gestureOf_sampleHand]; rfl) (by rw [gestureOf_sampleHand]; rfl)
      (by rw [gestureOf_sampleHand]; rfl)
      (by rw [mappedPoint_sampleHand]; norm_num)
      (by rw [mappedPoint_sampleHand]; norm_num)
      (by rw [mappedPoint_sampleHand]; norm_num)⟩

/-- C2 as stated fails: from the initial state (draw tool inactive), PeaceSign
at (200,150), OpenPalm, PeaceSign at (600,450) emit no segment, so the number
of segments emitted in total is not one. -/
theorem pen_down_reset_counterexample :
    initialState.isDrawing = false ∧
    gestureOf (sampleHand false true true false false (1/4) (1/4)) = some Gesture.PeaceSign ∧
    gestureOf (sampleHand true true true true true (1/2) (1/2)) = some Gesture.OpenPalm ∧
    gestureOf (sampleHand false true true false false (3/4) (3/4)) = some Gesture.PeaceSign ∧
    ∃ s3 e1 e2 e3,
      processFrames initialState
        [sampleHand false true true false false (1/4) (1/4),
         sampleHand true true true true true (1/2) (1/2),
         sampleHand false true true false false (3/4) (3/4)] = some (s3, [e1, e2, e3]) ∧
      e1 = [] ∧
      e2 = [Event.modeElement "Inactive" "mode inactive"] ∧
      e3 = [Event.modeElement "Drawing" "mode drawing"] ∧
      (segments (e1 ++ e2 ++ e3)).length ≠ 1 := by
  refine ⟨rfl, by rw [gestureOf_sampleHand]; rfl, by rw [gestureOf_sampleHand]; rfl,
    by rw [gestureOf_sampleHand]; rfl, ?_⟩
  simp only [processFrames, processHandGesture_eq_frameStep, gestureOf_sampleHand,
    mappedPoint_frameStep, mappedPoint_sampleHand, Option.some_bind, Option.bind_eq_bind,
    Option.pure_def]
  refine ⟨_, _, _, _, rfl, ?_, ?_, ?_, ?_⟩
  all_goals simp [frameStep, branch, classify, isPeaceSign, isFist, isThumbsUp, isOpenPalm,
    isPointing, setMode, drawAtPosition, startDrawing, stopDrawing, initialState, segments,
    Event.isSegment, capitalizeFirst]

/-- Three frames in a row, from the result of each. -/
theorem processFrames_three (s : State) (l1 l2 l3 : List Landmark)
    (r1 r2 r3 : State × List Event)
    (d1 : processHandGesture s l1 = some r1)
    (d2 : processHandGesture r1.1 l2 = some r2)
    (d3 : processHandGesture r2.1 l3 = some r3) :
    processFrames s [l1, l2, l3] = some (r3.1, [r1.2, r2.2, r3.2]) := by
  simp [processFrames, d1, d2, d3]

/-! ## C3: no segment when a gesture starts -/

/-- C3 (amended). In every state (so in every reachable one), a frame classified
as PeaceSign (respectively Fist) that immediately follows a frame classified
as OpenPalm or None is a first-activation frame: both frames succeed, the
second emits no surface primitive (no segment), records its mapped point as
the anchor and leaves the draw tool (respectively the erase tool) active. -/
theorem first_activation_after_stop (s : State) (lprev l : List Landmark)
    (g tool : Gesture) (Q P : Point)
    (hg : g = Gesture.OpenPalm ∨ g = Gesture.None)
    (htool : tool = Gesture.PeaceSign ∨ tool = Gesture.Fist)
    (gprev : gestureOf lprev = some g) (pprev : mappedPoint s lprev = some Q)
    (gl : gestureOf l = some tool) (pl : mappedPoint s l = some P) :
    ∃ s1 e1 s2 e2,
      processHandGesture s lprev = some (s1, e1) ∧
      processHandGesture s1 l = some (s2, e2) ∧
      e2.filter Event.isSurface = [] ∧
      segments e2 = [] ∧
      s2.lastX = P.x ∧ s2.lastY = P.y ∧
      (tool = Gesture.PeaceSign → s2.isDrawing = true) ∧
      (tool = Gesture.Fist → s2.isErasing = true) := by
  have d1 := processHandGesture_of s lprev _ _ gprev pprev
  obtain ⟨a1, a2, _, _, _⟩ := frameStep_stop g s Q hg
  have q : mappedPoint (frameStep g s Q).1 l = some P := by
    rw [mappedPoint_frameStep]; exact pl
  have d2 := processHandGesture_of _ l _ _ gl q
  refine ⟨_, _, _, _, d1, d2, ?_⟩
  rcases htool with rfl | rfl
  · obtain ⟨b1, _, b3, b4, _, _, b7⟩ := frameStep_peace_up (frameStep g s Q).1 P a1
    exact ⟨b7, segments_eq_nil_of_surface _ b7, b3, b4, fun _ => b1, fun h => absurd h (by decide)⟩
  · obtain ⟨b1, _, b3, b4, b5⟩ := frameStep_fist_up (frameStep g s Q).1 P a2
    exact ⟨b5, segments_eq_nil_of_surface _ b5, b3, b4, fun h => absurd h (by decide), fun _ => b1⟩

/-- Witness for C3 (amended): after one PeaceSign frame, an unmatched hand
(index, middle and ring up) followed by a Fist at (600,450). -/
theorem first_activation_after_stop_witness :
    (Gesture.None = Gesture.OpenPalm ∨ Gesture.None = Gesture.None) ∧
    (Gesture.Fist = Gesture.PeaceSign ∨ Gesture.Fist = Gesture.Fist) ∧
    gestureOf (sampleHand false true true true false (1/2) (1/2)) = some Gesture.None ∧
    gestureOf (sampleHand false false false false false (3/4) (3/4)) = some Gesture.Fist ∧
    ∃ s1 e1 s2 e2,
      processHandGesture initialState (sampleHand false true true true false (1/2) (1/2)) =
        some (s1, e1) ∧
      processHandGesture s1 (sampleHand false false false false false (3/4) (3/4)) =
        some (s2, e2) ∧
      e2.filter Event.isSurface = [] ∧
      segments e2 = [] ∧
      s2.lastX = 600 ∧ s2.lastY = 450 ∧
      (Gesture.Fist = Gesture.PeaceSign → s2.isDrawing = true) ∧
      (Gesture.Fist = Gesture.Fist → s2.isErasing = true) :=
  ⟨Or.inr rfl, Or.inr rfl, by rw [gestureOf_sampleHand]; rfl, by rw [gestureOf_sampleHand]; rfl,
    first_activation_after_stop initialState _ _ Gesture.None Gesture.Fist ⟨400, 300⟩ ⟨600, 450⟩
      (Or.inr rfl) (Or.inr rfl)
      (by rw [gestureOf_sampleHand]; rfl) (by rw [mappedPoint_sampleHand]; norm_num)
      (by rw [gestureOf_sampleHand]; rfl) (by rw [mappedPoint_sampleHand]; norm_num)⟩

/-- C3 as stated fails: from the initial state, a PeaceSign frame at (200,150),
a Fist frame at (400,300) and a PeaceSign frame at (600,450); the last frame
follows a frame of another gesture, yet it is not a first activation: it
draws the segment (400,300) -> (600,450). -/
theorem first_activation_counterexample :
    gestureOf (sampleHand false false false false false (1/2) (1/2)) = some Gesture.Fist ∧
    gestureOf (sampleHand false true true false false (3/4) (3/4)) = some Gesture.PeaceSign ∧
    ∃ s3 e1 e2,
      processFrames initialState
        [sampleHand false true true false false (1/4) (1/4),
         sampleHand false false false false false (1/2) (1/2),
         sampleHand false true true false false (3/4) (3/4)] =
        some (s3, [e1, e2, [Event.modeElement "Drawing" "mode drawing",
                            Event.stroke 400 300 600 450 10 "#ff0000" "round"]]) := by
  refine ⟨by rw [gestureOf_sampleHand]; rfl, by rw [gestureOf_sampleHand]; rfl, ?_⟩
  have d1 := processHandGesture_of initialState
    (sampleHand false true true false false (1/4) (1/4)) Gesture.PeaceSign ⟨200, 150⟩
    (by rw [gestureOf_sampleHand]; rfl) (by rw [mappedPoint_sampleHand]; norm_num)
  have d2 := processHandGesture_of (frameStep Gesture.PeaceSign initialState ⟨200, 150⟩).1
    (sampleHand false false false false false (1/2) (1/2)) Gesture.Fist ⟨400, 300⟩
    (by rw [gestureOf_sampleHand]; rfl)
    (by rw [mappedPoint_frameStep, mappedPoint_sampleHand]; norm_num)
  have d3 := processHandGesture_of
    (frameStep Gesture.Fist (frameStep Gesture.PeaceSign initialState ⟨200, 150⟩).1 ⟨400, 300⟩).1
    (sampleHand false true true false false (3/4) (3/4)) Gesture.PeaceSign ⟨600, 450⟩
    (by rw [gestureOf_sampleHand]; rfl)
    (by rw [mappedPoint_frameStep, mappedPoint_frameStep, mappedPoint_sampleHand]; norm_num)
  have h := processFrames_three _ _ _ _ _ _ _ d1 d2 d3
  have h3 : (frameStep Gesture.PeaceSign
      (frameStep Gesture.Fist (frameStep Gesture.PeaceSign initialState ⟨200, 150⟩).1
        ⟨400, 300⟩).1 ⟨600, 450⟩).2 =
      [Event.modeElement "Drawing" "mode drawing",
       Event.stroke 400 300 600 450 10 "#ff0000" "round"] := by
    simp [frameStep, branch, setMode, drawAtPosition, eraseAtPosition, startDrawing,
      initialState, capitalizeFirst]
  rw [h3] at h
  exact ⟨_, _, _, h⟩

/-! ## C4: ThumbsUp -/

/-- C4, the code at the failing input: from the initial state a PeaceSign frame
at (200,150) puts the pen down; the ThumbsUp frame that follows fills the
whole 800 x 600 surface with `#FFFFFF` and sets the mode to `inactive`, but
the draw tool is still active afterwards (`isDrawing = true`). -/
theorem thumbsUp_keeps_pen_down :
    gestureOf (sampleHand true false false false false (1/2) (1/2)) = some Gesture.ThumbsUp ∧
    ∃ s1 e1 s2,
      processHandGesture initialState (sampleHand false true true false false (1/4) (1/4)) =
        some (s1, e1) ∧
      s1.isDrawing = true ∧
      processHandGesture s1 (sampleHand true false false false false (1/2) (1/2)) =
        some (s2, [Event.fillRect 0 0 800 600 "#FFFFFF", Event.status "Canvas cleared!",
                   Event.modeElement "Inactive" "mode inactive"]) ∧
      s2.currentMode = "inactive" ∧
      s2.isDrawing = true := by
  refine ⟨by rw [gestureOf_sampleHand]; rfl, ?_⟩
  have d1 := processHandGesture_of initialState
    (sampleHand false true true false false (1/4) (1/4)) Gesture.PeaceSign ⟨200, 150⟩
    (by rw [gestureOf_sampleHand]; rfl) (by rw [mappedPoint_sampleHand]; norm_num)
  have d2 := processHandGesture_of (frameStep Gesture.PeaceSign initialState ⟨200, 150⟩).1
    (sampleHand true false false false false (1/2) (1/2)) Gesture.ThumbsUp ⟨400, 300⟩
    (by rw [gestureOf_sampleHand]; rfl)
    (by rw [mappedPoint_frameStep, mappedPoint_sampleHand]; norm_num)
  have h2 : (frameStep Gesture.ThumbsUp (frameStep Gesture.PeaceSign initialState ⟨200, 150⟩).1
      ⟨400, 300⟩).2 =
      [Event.fillRect 0 0 800 600 "#FFFFFF", Event.status "Canvas cleared!",
       Event.modeElement "Inactive" "mode inactive"] := by
    simp [frameStep, branch, setMode, drawAtPosition, clearDrawingCanvas, startDrawing,
      initialState, capitalizeFirst]
  have d2e : processHandGesture (frameStep Gesture.PeaceSign initialState ⟨200, 150⟩).1
      (sampleHand true false false false false (1/2) (1/2)) =
      some ((frameStep Gesture.ThumbsUp (frameStep Gesture.PeaceSign initialState ⟨200, 150⟩).1
        ⟨400, 300⟩).1,
        [Event.fillRect 0 0 800 600 "#FFFFFF", Event.status "Canvas cleared!",
         Event.modeElement "Inactive" "mode inactive"]) := by
    rw [d2, ← h2]
  refine ⟨_, _, _, d1, ?_, d2e, ?_, ?_⟩ <;>
    simp [frameStep, branch, setMode, drawAtPosition, clearDrawingCanvas, startDrawing,
      initialState]

/-! ## C5: Pointing -/

/-- C5 (amended). For every state and every frame classified as Pointing with
mapped point P, the frame succeeds, emits the filled circle of radius
brushSize / 2 at P in the brush colour as its only surface primitive, leaves
both pen-down flags (`isDrawing`, `isErasing`) unchanged, and sets the
continuity anchor (`lastX`, `lastY`) to P. -/
theorem pointing_frame (s : State) (landmarks : List Landmark) (P : Point)
    (hg : gestureOf landmarks = some Gesture.Pointing)
    (hp : mappedPoint s landmarks = some P) :
    ∃ s1 e,
      processHandGesture s landmarks = some (s1, e) ∧
      s1.isDrawing = s.isDrawing ∧ s1.isErasing = s.isErasing ∧
      s1.lastX = P.x ∧ s1.lastY = P.y ∧
      e.filter Event.isSurface = [Event.fillArc P.x P.y (s.brushSize / 2) s.brushColor] := by
  refine ⟨_, _, processHandGesture_of s landmarks _ _ hg hp, ?_⟩
  simp only [frameStep, branch, setMode, drawPoint]
  split_ifs <;> simp [Event.isSurface]

/-- Witness for C5 (amended): a pointing hand at (400,300) in the initial state. -/
theorem pointing_frame_witness :
    gestureOf (sampleHand false true false false false (1/2) (1/2)) = some Gesture.Pointing ∧
    mappedPoint initialState (sampleHand false true false false false (1/2) (1/2)) =
      some ⟨400, 300⟩ ∧
    ∃ s1 e,
      processHandGesture initialState (sampleHand false true false false false (1/2) (1/2)) =
        some (s1, e) ∧
      s1.isDrawing = initialState.isDrawing ∧ s1.isErasing = initialState.isErasing ∧
      s1.lastX = 400 ∧ s1.lastY = 300 ∧
      e.filter Event.isSurface =
        [Event.fillArc 400 300 (initialState.brushSize / 2) initialState.brushColor] :=
  ⟨by rw [gestureOf_sampleHand]; rfl, by rw [mappedPoint_sampleHand]; norm_num,
    pointing_frame initialState _ ⟨400, 300⟩ (by rw [gestureOf_sampleHand]; rfl)
      (by rw [mappedPoint_sampleHand]; norm_num)⟩

/-- C5 as stated fails: in the initial state the anchor is (0,0); a Pointing
frame at (400,300) leaves `isDrawing` as it was but moves the anchor to
(400,300). -/
theorem pointing_anchor_counterexample :
    gestureOf (sampleHand false true false false false (1/2) (1/2)) = some Gesture.Pointing ∧
    ∃ s1 e,
      processHandGesture initialState (sampleHand false true false false false (1/2) (1/2)) =
        some (s1, e) ∧
      s1.isDrawing = initialState.isDrawing ∧
      ¬ (s1.lastX = initialState.lastX ∧ s1.lastY = initialState.lastY) := by
  refine ⟨by rw [gestureOf_sampleHand]; rfl, ?_⟩
  have d1 := processHandGesture_of initialState
    (sampleHand false true false false false (1/2) (1/2)) Gesture.Pointing ⟨400, 300⟩
    (by rw [gestureOf_sampleHand]; rfl) (by rw [mappedPoint_sampleHand]; norm_num)
  refine ⟨_, _, d1, ?_, ?_⟩ <;>
    simp [frameStep, branch, setMode, drawPoint, initialState]

/-! ## C6: draw and erase pen state -/

/-- C6 (amended). The two tools have separate active flags but share the one
anchor (`lastX`, `lastY`): for every state, a Fist frame leaves `isDrawing`
unchanged and a PeaceSign frame leaves `isErasing` unchanged, and either
frame sets the shared anchor to its mapped point; the same holds for
`eraseAtPosition` and `drawAtPosition` themselves. -/
theorem tools_share_anchor (s : State) (lf lp : List Landmark) (F P : Point)
    (gf : gestureOf lf = some Gesture.Fist) (pf : mappedPoint s lf = some F)
    (gp : gestureOf lp = some Gesture.PeaceSign) (pp : mappedPoint s lp = some P) :
    (∃ s1 e, processHandGesture s lf = some (s1, e) ∧
      s1.isDrawing = s.isDrawing ∧ s1.lastX = F.x ∧ s1.lastY = F.y) ∧
    (∃ s1 e, processHandGesture s lp = some (s1, e) ∧
      s1.isErasing = s.isErasing ∧ s1.lastX = P.x ∧ s1.lastY = P.y) ∧
    (∀ x y, (eraseAtPosition s x y).1.isDrawing = s.isDrawing ∧
      (eraseAtPosition s x y).1.lastX = x ∧ (eraseAtPosition s x y).1.lastY = y) ∧
    (∀ x y, (drawAtPosition s x y).1.isErasing = s.isErasing ∧
      (drawAtPosition s x y).1.lastX = x ∧ (drawAtPosition s x y).1.lastY = y) := by
  refine ⟨⟨_, _, processHandGesture_of s lf _ _ gf pf, ?_⟩,
    ⟨_, _, processHandGesture_of s lp _ _ gp pp, ?_⟩, ?_, ?_⟩
  · simp only [frameStep, branch, setMode, eraseAtPosition]
    split_ifs <;> simp
  · simp only [frameStep, branch, setMode, drawAtPosition, startDrawing]
    split_ifs <;> simp
  · intro x y
    simp only [eraseAtPosition]
    split_ifs <;> simp
  · intro x y
    simp only [drawAtPosition, startDrawing]
    split_ifs <;> simp

/-- Witness for C6 (amended): a fist at (400,300) and a peace sign at (600,450)
in the initial state. -/
theorem tools_share_anchor_witness :
    gestureOf (sampleHand false false false false false (1/2) (1/2)) = some Gesture.Fist ∧
    gestureOf (sampleHand false true true false false (3/4) (3/4)) = some Gesture.PeaceSign ∧
    (∃ s1 e, processHandGesture initialState
        (sampleHand false false false false false (1/2) (1/2)) = some (s1, e) ∧
      s1.isDrawing = initialState.isDrawing ∧ s1.lastX = 400 ∧ s1.lastY = 300) ∧
    (∃ s1 e, processHandGesture initialState
        (sampleHand false true true false false (3/4) (3/4)) = some (s1, e) ∧
      s1.isErasing = initialState.isErasing ∧ s1.lastX = 600 ∧ s1.lastY = 450) :=
  have h := tools_share_anchor initialState
    (sampleHand false false false false false (1/2) (1/2))
    (sampleHand false true true false false (3/4) (3/4)) ⟨400, 300⟩ ⟨600, 450⟩
    (by rw [gestureOf_sampleHand]; rfl) (by rw [mappedPoint_sampleHand]; norm_num)
    (by rw [gestureOf_sampleHand]; rfl) (by rw [mappedPoint_sampleHand]; norm_num)
  ⟨by rw [gestureOf_sampleHand]; rfl, by rw [gestureOf_sampleHand]; rfl, h.1, h.2.1⟩

/-- C6 as stated fails: after a PeaceSign frame at (200,150) the draw tool is
active with last point (200,150); the Fist frame at (400,300) that follows
keeps the draw tool active but moves that last point to (400,300). -/
theorem erase_moves_draw_anchor_counterexample :
    gestureOf (sampleHand false false false false false (1/2) (1/2)) = some Gesture.Fist ∧
    ∃ s1 e1 s2 e2,
      processHandGesture initialState (sampleHand false true true false false (1/4) (1/4)) =
        some (s1, e1) ∧
      s1.isDrawing = true ∧ s1.lastX = 200 ∧ s1.lastY = 150 ∧
      processHandGesture s1 (sampleHand false false false false false (1/2) (1/2)) =
        some (s2, e2) ∧
      s2.isDrawing = s1.isDrawing ∧
      ¬ (s2.lastX = s1.lastX ∧ s2.lastY = s1.lastY) ∧
      (eraseAtPosition s1 400 300).1.lastX ≠ s1.lastX := by
  refine ⟨by rw [gestureOf_sampleHand]; rfl, ?_⟩
  have d1 := processHandGesture_of initialState
    (sampleHand false true true false false (1/4) (1/4)) Gesture.PeaceSign ⟨200, 150⟩
    (by rw [gestureOf_sampleHand]; rfl) (by rw [mappedPoint_sampleHand]; norm_num)
  have d2 := processHandGesture_of (frameStep Gesture.PeaceSign initialState ⟨200, 150⟩).1
    (sampleHand false false false false false (1/2) (1/2)) Gesture.Fist ⟨400, 300⟩
    (by rw [gestureOf_sampleHand]; rfl)
    (by rw [mappedPoint_frameStep, mappedPoint_sampleHand]; norm_num)
  refine ⟨_, _, _, _, d1, ?_, ?_, ?_, d2, ?_, ?_, ?_⟩ <;>
    simp [frameStep, branch, setMode, drawAtPosition, eraseAtPosition, startDrawing,
      initialState]

/-! ## C7: the dispatch against the rule table -/

/-- C7. For all 32 finger states `[thumb, index, middle, ring, pinky]` the branch
taken by the chain of `processHandGesture` is: PeaceSign iff index and middle
are extended and ring and pinky folded; Fist iff all five are folded;
ThumbsUp iff only the thumb is extended; OpenPalm iff all five are extended;
Pointing iff only the index is extended; the final `else` otherwise, which is
the case for exactly 26 of the 32 states. `processHandGesture` runs the body
of the branch so selected. -/
theorem dispatch_rule_table :
    (∀ thumb index middle ring pinky : Bool,
      (classify [thumb, index, middle, ring, pinky] = Gesture.PeaceSign ↔
        (index = true ∧ middle = true ∧ ring = false ∧ pinky = false)) ∧
      (classify [thumb, index, middle, ring, pinky] = Gesture.Fist ↔
        (thumb = false ∧ index = false ∧ middle = false ∧ ring = false ∧ pinky = false)) ∧
      (classify [thumb, index, middle, ring, pinky] = Gesture.ThumbsUp ↔
        (thumb = true ∧ index = false ∧ middle = false ∧ ring = false ∧ pinky = false)) ∧
      (classify [thumb, index, middle, ring, pinky] = Gesture.OpenPalm ↔
        (thumb = true ∧ index = true ∧ middle = true ∧ ring = true ∧ pinky = true)) ∧
      (classify [thumb, index, middle, ring, pinky] = Gesture.Pointing ↔
        (thumb = false ∧ index = true ∧ middle = false ∧ ring = false ∧ pinky = false))) ∧
    allFingerStates.length = 32 ∧
    allFingerStates.Nodup ∧
    (allFingerStates.filter fun f => decide (classify f = Gesture.None)).length = 26 ∧
    (allFingerStates.filter fun f => decide (classify f ≠ Gesture.None)) =
      [[false, false, false, false, false], [false, true, false, false, false],
       [false, true, true, false, false], [true, false, false, false, false],
       [true, true, true, false, false], [true, true, true, true, true]] ∧
    classify [false, true, true, false, false] = Gesture.PeaceSign ∧
    classify [false, false, false, false, false] = Gesture.Fist ∧
    classify [true, false, false, false, false] = Gesture.ThumbsUp ∧
    (∀ (s : State) (landmarks : List Landmark),
      processHandGesture s landmarks =
        (getFingersUp landmarks).bind fun fingers =>
          (mappedPoint s landmarks).bind fun P =>
            some (frameStep (classify fingers) s P)) := by
  refine ⟨?_, by decide, by decide, by decide, by decide, by decide, by decide,
    by decide, ?_⟩
  · intro thumb index middle ring pinky
    cases thumb <;> cases index <;> cases middle <;> cases ring <;> cases pinky <;> decide
  intro s landmarks
  rw [processHandGesture_eq_frameStep, gestureOf]
  cases getFingersUp landmarks <;> rfl

/-! ## C8: the five checks are mutually exclusive -/

/-- When every matching rule of a chain selects `g`, and `g` is `None` if no
rule matches, the chain selects `g`. -/
theorem firstMatch_eq_of_consistent (fingers : List Bool) (g : Gesture) :
    ∀ order : List ((List Bool → Bool) × Gesture),
      (∀ rule ∈ order, rule.1 fingers = true → rule.2 = g) →
      ((∀ rule ∈ order, rule.1 fingers = false) → g = Gesture.None) →
      firstMatch order fingers = g := by
  intro order
  induction order with
  | nil =>
    intro _ h2
    exact (h2 (by simp)).symm
  | cons rule rest ih =>
    intro h1 h2
    unfold firstMatch
    by_cases hr : rule.1 fingers = true
    · rw [if_pos hr]
      exact h1 rule (by simp) hr
    · rw [if_neg hr]
      apply ih
      · intro r hm
        exact h1 r (List.mem_cons_of_mem _ hm)
      · intro hall
        apply h2
        intro r hm
        rcases List.mem_cons.mp hm with rfl | hm
        · simpa using hr
        · exact hall r hm

/-- The five checks and the chain read only the entries 0 to 4 of `fingers`. -/
theorem checks_read_five (fingers : List Bool) :
    isPeaceSign fingers = isPeaceSign [fingers.getD 0 false, fingers.getD 1 false,
      fingers.getD 2 false, fingers.getD 3 false, fingers.getD 4 false] ∧
    isFist fingers = isFist [fingers.getD 0 false, fingers.getD 1 false,
      fingers.getD 2 false, fingers.getD 3 false, fingers.getD 4 false] ∧
    isThumbsUp fingers = isThumbsUp [fingers.getD 0 false, fingers.getD 1 false,
      fingers.getD 2 false, fingers.getD 3 false, fingers.getD 4 false] ∧
    isOpenPalm fingers = isOpenPalm [fingers.getD 0 false, fingers.getD 1 false,
      fingers.getD 2 false, fingers.getD 3 false, fingers.getD 4 false] ∧
    isPointing fingers = isPointing [fingers.getD 0 false, fingers.getD 1 false,
      fingers.getD 2 false, fingers.getD 3 false, fingers.getD 4 false] ∧
    classify fingers = classify [fingers.getD 0 false, fingers.getD 1 false,
      fingers.getD 2 false, fingers.getD 3 false, fingers.getD 4 false] := by
  simp [classify, isPeaceSign, isFist, isThumbsUp, isOpenPalm, isPointing]

/-- On five booleans: at most one check holds, a check that holds selects the
gesture of `classify`, and `classify` is `None` when no check holds. -/
theorem checks_on_five (a b c d e : Bool) :
    [isPeaceSign [a, b, c, d, e], isFist [a, b, c, d, e], isThumbsUp [a, b, c, d, e],
      isOpenPalm [a, b, c, d, e], isPointing [a, b, c, d, e]].count true ≤ 1 ∧
    (isPeaceSign [a, b, c, d, e] = true → Gesture.PeaceSign = classify [a, b, c, d, e]) ∧
    (isFist [a, b, c, d, e] = true → Gesture.Fist = classify [a, b, c, d, e]) ∧
    (isThumbsUp [a, b, c, d, e] = true → Gesture.ThumbsUp = classify [a, b, c, d, e]) ∧
    (isOpenPalm [a, b, c, d, e] = true → Gesture.OpenPalm = classify [a, b, c, d, e]) ∧
    (isPointing [a, b, c, d, e] = true → Gesture.Pointing = classify [a, b, c, d, e]) ∧
    (isPeaceSign [a, b, c, d, e] = false → isFist [a, b, c, d, e] = false →
      isThumbsUp [a, b, c, d, e] = false → isOpenPalm [a, b, c, d, e] = false →
      isPointing [a, b, c, d, e] = false → classify [a, b, c, d, e] = Gesture.None) := by
  cases a <;> cases b <;> cases c <;> cases d <;> cases e <;> decide

/-- Every rule of the table that matches selects the gesture of `classify`. -/
theorem gestureRules_consistent (fingers : List Bool) :
    (∀ rule ∈ gestureRules, rule.1 fingers = true → rule.2 = classify fingers) ∧
    ((∀ rule ∈ gestureRules, rule.1 fingers = false) → classify fingers = Gesture.None) := by
  obtain ⟨r1, r2, r3, r4, r5, r6⟩ := checks_read_five fingers
  obtain ⟨_, k1, k2, k3, k4, k5, k6⟩ := checks_on_five (fingers.getD 0 false)
    (fingers.getD 1 false) (fingers.getD 2 false) (fingers.getD 3 false) (fingers.getD 4 false)
  rw [← r1, ← r2, ← r3, ← r4, ← r5, ← r6] at k6
  rw [← r1, ← r6] at k1
  rw [← r2, ← r6] at k2
  rw [← r3, ← r6] at k3
  rw [← r4, ← r6] at k4
  rw [← r5, ← r6] at k5
  simp only [gestureRules, List.mem_cons, List.mem_singleton, forall_eq_or_imp, forall_eq,
    List.not_mem_nil]
  exact ⟨⟨k1, k2, k3, k4, k5, by simp⟩, fun h => k6 h.1 h.2.1 h.2.2.1 h.2.2.2.1 h.2.2.2.2.1⟩

/-- C8. For every finger state at most one of `isPeaceSign`, `isFist`,
`isThumbsUp`, `isOpenPalm`, `isPointing` is true, and the `if / else if` chain
run over the five checks in any order selects the same branch as the chain of
`processHandGesture`. -/
theorem checks_mutually_exclusive (fingers : List Bool)
    (order : List ((List Bool → Bool) × Gesture)) (h : order.Perm gestureRules) :
    [isPeaceSign fingers, isFist fingers, isThumbsUp fingers, isOpenPalm fingers,
      isPointing fingers].count true ≤ 1 ∧
    firstMatch order fingers = classify fingers := by
  constructor
  · obtain ⟨r1, r2, r3, r4, r5, _⟩ := checks_read_five fingers
    rw [r1, r2, r3, r4, r5]
    exact (checks_on_five _ _ _ _ _).1
  · obtain ⟨h1, h2⟩ := gestureRules_consistent fingers
    apply firstMatch_eq_of_consistent
    · intro rule hm
      exact h1 rule (h.mem_iff.mp hm)
    · intro hall
      apply h2
      intro rule hm
      exact hall rule (h.mem_iff.mpr hm)

/-- Witness for C8: the five checks in the reverse order, on a peace sign. -/
theorem checks_mutually_exclusive_witness :
    gestureRules.reverse.Perm gestureRules ∧
    [isPeaceSign [false, true, true, false, false], isFist [false, true, true, false, false],
      isThumbsUp [false, true, true, false, false], isOpenPalm [false, true, true, false, false],
      isPointing [false, true, true, false, false]].count true ≤ 1 ∧
    firstMatch gestureRules.reverse [false, true, true, false, false] =
      classify [false, true, true, false, false] :=
  ⟨List.reverse_perm _,
    checks_mutually_exclusive [false, true, true, false, false] gestureRules.reverse
      (List.reverse_perm _)⟩

/-! ## C9: thumb + peace, three fingers up -/

/-- C9, the code at the failing input: `isPeaceSign` does not read the thumb, so
the finger state with thumb, index and middle extended matches rule 1 and
takes the PeaceSign branch (it is not `None`); index, middle and ring
extended matches no rule and is `None`. -/
theorem thumb_peace_is_peace :
    isPeaceSign [true, true, true, false, false] = true ∧
    classify [true, true, true, false, false] = Gesture.PeaceSign ∧
    classify [true, true, true, false, false] ≠ Gesture.None ∧
    classify [false, true, true, true, false] = Gesture.None := by
  decide

/-! ## C10: `getFingersUp` -/

/-- C10. On every set of 21 landmarks `getFingersUp` returns exactly five
booleans, in the order thumb (tip 4 against joint 3), index (8 against 6),
middle (12 against 10), ring (16 against 14), pinky (20 against 18), each one
true iff the tip's y is strictly less than the joint's y; the result is
all-true when every tip is strictly above its joint and all-false when every
tip's y is greater than or equal to its joint's y. -/
theorem getFingersUp_spec (landmarks : List Landmark) (h : landmarks.length = 21) :
    getFingersUp landmarks =
      some [decide (landmarks[4].y < landmarks[3].y),
            decide (landmarks[8].y < landmarks[6].y),
            decide (landmarks[12].y < landmarks[10].y),
            decide (landmarks[16].y < landmarks[14].y),
            decide (landmarks[20].y < landmarks[18].y)] ∧
    (getFingersUp landmarks).map List.length = some 5 ∧
    (landmarks[4].y < landmarks[3].y ∧ landmarks[8].y < landmarks[6].y ∧
      landmarks[12].y < landmarks[10].y ∧ landmarks[16].y < landmarks[14].y ∧
      landmarks[20].y < landmarks[18].y →
        getFingersUp landmarks = some [true, true, true, true, true]) ∧
    (landmarks[4].y ≥ landmarks[3].y ∧ landmarks[8].y ≥ landmarks[6].y ∧
      landmarks[12].y ≥ landmarks[10].y ∧ landmarks[16].y ≥ landmarks[14].y ∧
      landmarks[20].y ≥ landmarks[18].y →
        getFingersUp landmarks = some [false, false, false, false, false]) := by
  have key : getFingersUp landmarks =
      some [decide (landmarks[4].y < landmarks[3].y),
            decide (landmarks[8].y < landmarks[6].y),
            decide (landmarks[12].y < landmarks[10].y),
            decide (landmarks[16].y < landmarks[14].y),
            decide (landmarks[20].y < landmarks[18].y)] := by
    simp [getFingersUp, fingerTips, fingerPips, List.getElem?_eq_getElem, h]
  refine ⟨key, ?_, ?_, ?_⟩
  · rw [key]; rfl
  · rintro ⟨h0, h1, h2, h3, h4⟩
    rw [key]; simp [h0, h1, h2, h3, h4]
  · rintro ⟨h0, h1, h2, h3, h4⟩
    rw [key]; simp [not_lt.mpr h0, not_lt.mpr h1, not_lt.mpr h2, not_lt.mpr h3, not_lt.mpr h4]

/-- Witness for C10: an open hand (every tip at y = 1/4, every joint at
y = 1/2) gives all-true, and a closed hand (every tip at y = 3/4) all-false. -/
theorem getFingersUp_spec_witness :
    (sampleHand true true true true true (1/2) (1/2)).length = 21 ∧
    (sampleHand false false false false false (1/2) (1/2)).length = 21 ∧
    getFingersUp (sampleHand true true true true true (1/2) (1/2)) =
      some [true, true, true, true, true] ∧
    (getFingersUp (sampleHand true true true true true (1/2) (1/2))).map List.length = some 5 ∧
    getFingersUp (sampleHand false false false false false (1/2) (1/2)) =
      some [false, false, false, false, false] :=
  ⟨rfl, rfl,
    (getFingersUp_spec (sampleHand true true true true true (1/2) (1/2)) rfl).2.2.1
      (by simp [sampleHand]; norm_num),
    (getFingersUp_spec (sampleHand true true true true true (1/2) (1/2)) rfl).2.1,
    (getFingersUp_spec (sampleHand false false false false false (1/2) (1/2)) rfl).2.2.2
      (by simp [sampleHand]; norm_num)⟩

/-! ## Landmark sets with at least 21 points -/

/-- With 21 points or more, `getHandCenter` returns the mean of the six scaled
palm-base points. -/
theorem getHandCenter_eq (s : State) (landmarks : List Landmark) (h : 21 ≤ landmarks.length) :
    getHandCenter s landmarks =
      some { x := (landmarks[0].x * s.handWidth + landmarks[1].x * s.handWidth +
                   landmarks[5].x * s.handWidth + landmarks[9].x * s.handWidth +
                   landmarks[13].x * s.handWidth + landmarks[17].x * s.handWidth) / 6,
             y := (landmarks[0].y * s.handHeight + landmarks[1].y * s.handHeight +
                   landmarks[5].y * s.handHeight + landmarks[9].y * s.handHeight +
                   landmarks[13].y * s.handHeight + landmarks[17].y * s.handHeight) / 6 } := by
  have h0 : 0 < landmarks.length := by omega
  have h1 : 1 < landmarks.length := by omega
  have h5 : 5 < landmarks.length := by omega
  have h9 : 9 < landmarks.length := by omega
  have h13 : 13 < landmarks.length := by omega
  have h17 : 17 < landmarks.length := by omega
  simp [getHandCenter, palmPoints, List.getElem?_eq_getElem, h0, h1, h5, h9, h13, h17]

/-- With 21 points or more, `getFingersUp` returns a finger array. -/
theorem getFingersUp_isSome (landmarks : List Landmark) (h : 21 ≤ landmarks.length) :
    ∃ fingers, getFingersUp landmarks = some fingers := by
  have h3 : 3 < landmarks.length := by omega
  have h4 : 4 < landmarks.length := by omega
  have h6 : 6 < landmarks.length := by omega
  have h8 : 8 < landmarks.length := by omega
  have h10 : 10 < landmarks.length := by omega
  have h12 : 12 < landmarks.length := by omega
  have h14 : 14 < landmarks.length := by omega
  have h16 : 16 < landmarks.length := by omega
  have h18 : 18 < landmarks.length := by omega
  have h20 : 20 < landmarks.length := by omega
  simp [getFingersUp, fingerTips, fingerPips, List.getElem?_eq_getElem, h3, h4, h6, h8, h10,
    h12, h14, h16, h18, h20]

/-- With fewer than 21 points, `getFingersUp` throws. -/
theorem getFingersUp_short (landmarks : List Landmark) (h : landmarks.length < 21) :
    getFingersUp landmarks = none := by
  have h20 : landmarks[20]? = none := List.getElem?_eq_none (by omega)
  unfold getFingersUp
  cases h4 : landmarks[4]? with
  | none => rfl
  | some tip =>
    cases h3 : landmarks[3]? with
    | none => rfl
    | some joint =>
      simp only [Option.bind_eq_bind, Option.some_bind, List.foldlM, fingerTips, fingerPips,
        List.getElem?_cons_succ, List.getElem?_cons_zero, Option.pure_def, h20]
      cases landmarks[8]? <;> cases landmarks[6]? <;> cases landmarks[12]? <;>
        cases landmarks[10]? <;> cases landmarks[16]? <;> cases landmarks[14]? <;> simp

/-! ## C11: `getHandCenter` -/

/-- C11. On every set of 21 landmarks `getHandCenter` returns the arithmetic
mean, in tracking-frame pixels, of the six palm-base landmarks 0, 1, 5, 9, 13,
17: x is the sum of `landmarks[i].x * handCanvas.width` over the six divided
by 6, and y the same with `.y` and the height; two sets of 21 landmarks that
agree in x and y on those six indices have the same centre, whatever their
other landmarks and whatever any z. -/
theorem getHandCenter_mean (s : State) (landmarks : List Landmark)
    (h : landmarks.length = 21) :
    getHandCenter s landmarks =
      some { x := (landmarks[0].x * s.handWidth + landmarks[1].x * s.handWidth +
                   landmarks[5].x * s.handWidth + landmarks[9].x * s.handWidth +
                   landmarks[13].x * s.handWidth + landmarks[17].x * s.handWidth) / 6,
             y := (landmarks[0].y * s.handHeight + landmarks[1].y * s.handHeight +
                   landmarks[5].y * s.handHeight + landmarks[9].y * s.handHeight +
                   landmarks[13].y * s.handHeight + landmarks[17].y * s.handHeight) / 6 } ∧
    ∀ other : List Landmark, other.length = 21 →
      (∀ i ∈ palmPoints, (other[i]?).map (fun p => (p.x, p.y)) =
        (landmarks[i]?).map (fun p => (p.x, p.y))) →
      getHandCenter s other = getHandCenter s landmarks := by
  refine ⟨getHandCenter_eq s landmarks (by omega), ?_⟩
  intro other ho hagree
  rw [getHandCenter_eq s landmarks (by omega), getHandCenter_eq s other (by omega)]
  have e : ∀ i (hi : i ∈ palmPoints) (h1 : i < other.length) (h2 : i < landmarks.length),
      other[i].x = landmarks[i].x ∧ other[i].y = landmarks[i].y := by
    intro i hi h1 h2
    have := hagree i hi
    rw [List.getElem?_eq_getElem h1, List.getElem?_eq_getElem h2] at this
    simpa using this
  obtain ⟨a0, b0⟩ := e 0 (by decide) (by omega) (by omega)
  obtain ⟨a1, b1⟩ := e 1 (by decide) (by omega) (by omega)
  obtain ⟨a5, b5⟩ := e 5 (by decide) (by omega) (by omega)
  obtain ⟨a9, b9⟩ := e 9 (by decide) (by omega) (by omega)
  obtain ⟨a13, b13⟩ := e 13 (by decide) (by omega) (by omega)
  obtain ⟨a17, b17⟩ := e 17 (by decide) (by omega) (by omega)
  rw [a0, a1, a5, a9, a13, a17, b0, b1, b5, b9, b13, b17]

/-- Witness for C11: an open hand and a closed hand with the palm at the same
place have the same centre, (320, 120) in the 640 x 480 frame. -/
theorem getHandCenter_mean_witness :
    (sampleHand true true true true true (1/2) (1/4)).length = 21 ∧
    (∃ c, getHandCenter initialState (sampleHand true true true true true (1/2) (1/4)) =
      some c) ∧
    getHandCenter initialState (sampleHand false false false false false (1/2) (1/4)) =
      getHandCenter initialState (sampleHand true true true true true (1/2) (1/4)) :=
  ⟨rfl,
    ⟨_, (getHandCenter_mean initialState (sampleHand true true true true true (1/2) (1/4))
      rfl).1⟩,
    (getHandCenter_mean initialState (sampleHand true true true true true (1/2) (1/4)) rfl).2
      (sampleHand false false false false false (1/2) (1/4)) rfl
      (by simp [palmPoints, sampleHand])⟩

/-! ## C12: the coordinate mapping -/

/-- C12. The mapping of `processHandGesture` is `mapToSurface` applied to the hand
centre; for non-zero W, H, W2, H2 it sends (0,0) to (0,0), (W,H) to (W2,H2),
and mapping a point and then mapping it back with the sizes swapped gives
the point again. -/
theorem mapToSurface_exact (p : Point) (W H W2 H2 : ℚ)
    (hW : W ≠ 0) (hH : H ≠ 0) (hW2 : W2 ≠ 0) (hH2 : H2 ≠ 0) :
    mapToSurface ⟨0, 0⟩ W H W2 H2 = ⟨0, 0⟩ ∧
    mapToSurface ⟨W, H⟩ W H W2 H2 = ⟨W2, H2⟩ ∧
    mapToSurface (mapToSurface p W H W2 H2) W2 H2 W H = p ∧
    (∀ (s : State) (landmarks : List Landmark),
      mappedPoint s landmarks =
        (getHandCenter s landmarks).map fun handCenter =>
          mapToSurface handCenter s.handWidth s.handHeight s.drawingWidth s.drawingHeight) := by
  refine ⟨?_, ?_, ?_, fun s landmarks => rfl⟩
  · simp [mapToSurface]
  · simp [mapToSurface, hW, hH]
  · cases p with
    | mk x y =>
      simp only [mapToSurface, Point.mk.injEq]
      constructor <;> (field_simp; ring)

/-- Witness for C12: the 640 x 480 frame and the 800 x 600 surface, at (320, 120). -/
theorem mapToSurface_exact_witness :
    (640 : ℚ) ≠ 0 ∧ (480 : ℚ) ≠ 0 ∧ (800 : ℚ) ≠ 0 ∧ (600 : ℚ) ≠ 0 ∧
    mapToSurface ⟨0, 0⟩ 640 480 800 600 = ⟨0, 0⟩ ∧
    mapToSurface ⟨640, 480⟩ 640 480 800 600 = ⟨800, 600⟩ ∧
    mapToSurface (mapToSurface ⟨320, 120⟩ 640 480 800 600) 800 600 640 480 = ⟨320, 120⟩ :=
  have h := mapToSurface_exact ⟨320, 120⟩ 640 480 800 600 (by norm_num) (by norm_num)
    (by norm_num) (by norm_num)
  ⟨by norm_num, by norm_num, by norm_num, by norm_num, h.1, h.2.1, h.2.2.1⟩

/-! ## C13: `setMode` is idempotent -/

/-- C13. For every state and every mode m: when the current mode is already m,
`setMode(m)` changes nothing and emits nothing; a second `setMode(m)` right
after a first one changes nothing and emits nothing, so the two calls give
the state and the notifications of a single call; when the current mode
differs from m, the two calls together emit exactly one notification (the
mode label of m) and leave `currentMode = m`. -/
theorem setMode_idempotent (s : State) (m : String) :
    (s.currentMode = m → setMode s m = (s, [])) ∧
    setMode (setMode s m).1 m = ((setMode s m).1, []) ∧
    ((setMode (setMode s m).1 m).1 = (setMode s m).1 ∧
      (setMode s m).2 ++ (setMode (setMode s m).1 m).2 = (setMode s m).2) ∧
    (s.currentMode ≠ m →
      (setMode s m).2 ++ (setMode (setMode s m).1 m).2 =
        [Event.modeElement (capitalizeFirst m) ("mode " ++ m)] ∧
      ((setMode s m).2 ++ (setMode (setMode s m).1 m).2).length = 1 ∧
      (setMode (setMode s m).1 m).1.currentMode = m) := by
  have hcur : (setMode s m).1.currentMode = m := by
    unfold setMode
    split_ifs with hne
    · rfl
    · exact not_not.mp hne
  have hsecond : setMode (setMode s m).1 m = ((setMode s m).1, []) := setMode_same _ _ hcur
  refine ⟨setMode_same s m, hsecond, ?_, ?_⟩
  · rw [hsecond]; simp
  · intro hne
    rw [hsecond]
    simp [setMode, hne]

/-- Witness for C13: in the initial state (mode `drawing`), `setMode('drawing')`
is a no-op and `setMode('erasing')` twice notifies once. -/
theorem setMode_idempotent_witness :
    initialState.currentMode = "drawing" ∧
    initialState.currentMode ≠ "erasing" ∧
    setMode initialState "drawing" = (initialState, []) ∧
    ((setMode initialState "erasing").2 ++
        (setMode (setMode initialState "erasing").1 "erasing").2).length = 1 ∧
    (setMode (setMode initialState "erasing").1 "erasing").1.currentMode = "erasing" :=
  ⟨rfl, by decide, (setMode_idempotent initialState "drawing").1 rfl,
    ((setMode_idempotent initialState "erasing").2.2.2 (by decide)).2.1,
    ((setMode_idempotent initialState "erasing").2.2.2 (by decide)).2.2⟩

/-! ## C14: the mode at startup -/

/-- C14 (amended). In the state established by the constructor both tools are
inactive and `currentMode` is `drawing`; so the first `setMode('drawing')`
after startup is a no-op that emits no notification, while a first
`setMode('inactive')` or `setMode('erasing')` emits one. -/
theorem initial_mode_is_drawing :
    initialState.currentMode = "drawing" ∧
    initialState.isDrawing = false ∧
    initialState.isErasing = false ∧
    setMode initialState "drawing" = (initialState, []) ∧
    (setMode initialState "inactive").2 = [Event.modeElement "Inactive" "mode inactive"] ∧
    (setMode initialState "erasing").2 = [Event.modeElement "Erasing" "mode erasing"] := by
  refine ⟨rfl, rfl, rfl, setMode_same _ _ rfl, ?_, ?_⟩ <;>
    simp [setMode, initialState, capitalizeFirst]

/-- C14 as stated fails: the constructor state has `currentMode = 'drawing'`, not
`inactive`, and the first `setMode('drawing')` emits no notification. -/
theorem initial_mode_counterexample :
    initialState.currentMode ≠ "inactive" ∧
    (setMode initialState "drawing").2 = [] := by
  constructor
  · simp [initialState]
  · simp [setMode, initialState]

/-! ## C15: the unmatched gesture -/

/-- Two frames in a row, from the result of each. -/
theorem processFrames_two (s : State) (l1 l2 : List Landmark) (r1 r2 : State × List Event)
    (d1 : processHandGesture s l1 = some r1)
    (d2 : processHandGesture r1.1 l2 = some r2) :
    processFrames s [l1, l2] = some (r2.1, [r1.2, r2.2]) := by
  simp [processFrames, d1, d2]

/-- C15. For every state (so also after any sequence of PeaceSign frames) and
every frame whose finger array matches none of the five rules, the frame
succeeds, emits nothing at all (no surface primitive, no mode notification),
sets `isDrawing` and `isErasing` to false and leaves `currentMode` unchanged;
a PeaceSign frame at Q right after it emits no segment: it is a fresh
pen-down with anchor Q. -/
theorem unmatched_frame (s : State) (ln lq : List Landmark) (fingers : List Bool) (N Q : Point)
    (hf : getFingersUp ln = some fingers)
    (h1 : isPeaceSign fingers = false) (h2 : isFist fingers = false)
    (h3 : isThumbsUp fingers = false) (h4 : isOpenPalm fingers = false)
    (h5 : isPointing fingers = false)
    (hp : mappedPoint s ln = some N)
    (gq : gestureOf lq = some Gesture.PeaceSign) (pq : mappedPoint s lq = some Q) :
    ∃ s1, processHandGesture s ln = some (s1, []) ∧
      s1.isDrawing = false ∧ s1.isErasing = false ∧ s1.currentMode = s.currentMode ∧
      ∃ s2 e2, processHandGesture s1 lq = some (s2, e2) ∧
        e2.filter Event.isSurface = [] ∧ segments e2 = [] ∧
        s2.isDrawing = true ∧ s2.lastX = Q.x ∧ s2.lastY = Q.y := by
  have hg : gestureOf ln = some Gesture.None := by
    simp [gestureOf, hf, classify, h1, h2, h3, h4, h5]
  have d1 := processHandGesture_of s ln _ _ hg hp
  have hev : (frameStep Gesture.None s N).2 = [] := rfl
  have d1e : processHandGesture s ln = some ((frameStep Gesture.None s N).1, []) := by
    rw [d1, ← hev]
  obtain ⟨a1, a2, _, _, _⟩ := frameStep_stop Gesture.None s N (Or.inr rfl)
  have q : mappedPoint (frameStep Gesture.None s N).1 lq = some Q := by
    rw [mappedPoint_frameStep]; exact pq
  have d2 := processHandGesture_of _ lq _ _ gq q
  obtain ⟨b1, _, b3, b4, _, _, b7⟩ := frameStep_peace_up (frameStep Gesture.None s N).1 Q a1
  exact ⟨_, d1e, a1, a2, rfl, _, _, d2, b7, segments_eq_nil_of_surface _ b7, b1, b3, b4⟩

/-- Witness for C15: after two PeaceSign frames from the initial state (pen
down), a hand with index, middle and ring up, then a PeaceSign at (600,450). -/
theorem unmatched_frame_witness :
    ∃ s evs,
      processFrames initialState
        [sampleHand false true true false false (1/4) (1/4),
         sampleHand false true true false false (1/2) (1/2)] = some (s, evs) ∧
      s.isDrawing = true ∧
      getFingersUp (sampleHand false true true true false (1/2) (1/4)) =
        some [false, true, true, true, false] ∧
      gestureOf (sampleHand false true true false false (3/4) (3/4)) =
        some Gesture.PeaceSign ∧
      ∃ s1, processHandGesture s (sampleHand false true true true false (1/2) (1/4)) =
          some (s1, []) ∧
        s1.isDrawing = false ∧ s1.isErasing = false ∧ s1.currentMode = s.currentMode ∧
        ∃ s2 e2, processHandGesture s1 (sampleHand false true true false false (3/4) (3/4)) =
            some (s2, e2) ∧
          e2.filter Event.isSurface = [] ∧ segments e2 = [] ∧
          s2.isDrawing = true ∧ s2.lastX = 600 ∧ s2.lastY = 450 :=
  have d1 := processHandGesture_of initialState
    (sampleHand false true true false false (1/4) (1/4)) Gesture.PeaceSign ⟨200, 150⟩
    (by rw [gestureOf_sampleHand]; rfl) (by rw [mappedPoint_sampleHand]; norm_num)
  have d2 := processHandGesture_of (frameStep Gesture.PeaceSign initialState ⟨200, 150⟩).1
    (sampleHand false true true false false (1/2) (1/2)) Gesture.PeaceSign ⟨400, 300⟩
    (by rw [gestureOf_sampleHand]; rfl)
    (by rw [mappedPoint_frameStep, mappedPoint_sampleHand]; norm_num)
  ⟨_, _, processFrames_two _ _ _ _ _ d1 d2,
    (frameStep_peace_down _ _ (frameStep_peace_up initialState ⟨200, 150⟩ rfl).1).1,
    getFingersUp_sampleHand _ _ _ _ _ _ _,
    by rw [gestureOf_sampleHand]; rfl,
    unmatched_frame _ (sampleHand false true true true false (1/2) (1/4))
      (sampleHand false true true false false (3/4) (3/4)) [false, true, true, true, false]
      ⟨400, 150⟩ ⟨600, 450⟩
      (getFingersUp_sampleHand _ _ _ _ _ _ _) (by decide) (by decide) (by decide) (by decide)
      (by decide)
      (by rw [mappedPoint_frameStep, mappedPoint_frameStep, mappedPoint_sampleHand]; norm_num)
      (by rw [gestureOf_sampleHand]; rfl)
      (by rw [mappedPoint_frameStep, mappedPoint_frameStep, mappedPoint_sampleHand]; norm_num)⟩

/-! ## C16: malformed input -/

/-- C16 (amended). The input is not validated. For every state, a landmark
input with fewer than 21 entries makes `processHandGesture` throw, before any
state change or emission; an input with 21 entries or more is processed like
any other frame, whatever its coordinates: the frame succeeds, runs the
branch of its gesture and moves the anchor to the mapped point. -/
theorem malformed_not_validated (s : State) (landmarks : List Landmark) :
    (landmarks.length < 21 → processHandGesture s landmarks = none) ∧
    (21 ≤ landmarks.length →
      ∃ g P, gestureOf landmarks = some g ∧ mappedPoint s landmarks = some P ∧
        processHandGesture s landmarks = some (frameStep g s P) ∧
        (frameStep g s P).1.lastX = P.x ∧ (frameStep g s P).1.lastY = P.y) := by
  constructor
  · intro h
    rw [processHandGesture_eq_frameStep, gestureOf, getFingersUp_short landmarks h]
    rfl
  · intro h
    obtain ⟨fingers, hf⟩ := getFingersUp_isSome landmarks h
    have hg : gestureOf landmarks = some (classify fingers) := by rw [gestureOf, hf]; rfl
    have hp : ∃ P, mappedPoint s landmarks = some P := by
      rw [mappedPoint, getHandCenter_eq s landmarks h]
      exact ⟨_, rfl⟩
    obtain ⟨P, hp⟩ := hp
    exact ⟨_, P, hg, hp, processHandGesture_of s landmarks _ _ hg hp, rfl, rfl⟩

/-- Witness for C16 (amended): the empty landmark array throws; a 21-point
PeaceSign hand with x = 2 (outside [0,1]) is processed. -/
theorem malformed_not_validated_witness :
    ([] : List Landmark).length < 21 ∧
    processHandGesture initialState [] = none ∧
    21 ≤ (sampleHand false true true false false 2 (1/2)).length ∧
    ∃ g P, gestureOf (sampleHand false true true false false 2 (1/2)) = some g ∧
      mappedPoint initialState (sampleHand false true true false false 2 (1/2)) = some P ∧
      processHandGesture initialState (sampleHand false true true false false 2 (1/2)) =
        some (frameStep g initialState P) ∧
      (frameStep g initialState P).1.lastX = P.x ∧ (frameStep g initialState P).1.lastY = P.y :=
  ⟨by decide, (malformed_not_validated initialState []).1 (by decide), by decide,
    (malformed_not_validated initialState (sampleHand false true true false false 2 (1/2))).2
      (by decide)⟩

/-- C16 as stated fails: on the empty landmark array (count not 21)
`processHandGesture` throws; on a 21-point PeaceSign hand whose x coordinates
are 2 (outside [0,1]) it does not skip the frame: the pen goes down and the
anchor moves to (1600, 300). -/
theorem malformed_counterexample :
    ([] : List Landmark).length ≠ 21 ∧
    processHandGesture initialState [] = none ∧
    (sampleHand false true true false false 2 (1/2)).length = 21 ∧
    (∃ p ∈ sampleHand false true true false false 2 (1/2), 1 < p.x) ∧
    ∃ s1 e,
      processHandGesture initialState (sampleHand false true true false false 2 (1/2)) =
        some (s1, e) ∧
      initialState.isDrawing = false ∧ s1.isDrawing = true ∧
      initialState.lastX = 0 ∧ s1.lastX = 1600 := by
  have d := processHandGesture_of initialState
    (sampleHand false true true false false 2 (1/2)) Gesture.PeaceSign ⟨1600, 300⟩
    (by rw [gestureOf_sampleHand]; rfl) (by rw [mappedPoint_sampleHand]; norm_num)
  obtain ⟨a1, _, a3, _⟩ := frameStep_peace_up initialState ⟨1600, 300⟩ rfl
  refine ⟨by decide, ?_, rfl, ⟨⟨2, 1/2, 0⟩, ?_, by norm_num⟩, _, _, d, rfl, a1, rfl, a3⟩
  · rw [processHandGesture_eq_frameStep, gestureOf,
      getFingersUp_short [] (by decide)]
    rfl
  · simp [sampleHand]

/-! ## C17: erase -/

/-- A Fist frame with the eraser down: one segment from the anchor, in
`#FFFFFF`, twice the brush size wide, round caps. -/
theorem frameStep_fist_down (s : State) (P : Point) (h : s.isErasing = true) :
    (frameStep Gesture.Fist s P).2 = (setMode s "erasing").2 ++
      [Event.stroke s.lastX s.lastY P.x P.y (s.brushSize * 2) "#FFFFFF" "round"] := by
  simp only [frameStep, branch, setMode, eraseAtPosition]
  split_ifs <;> simp_all

/-- After a Fist frame the mode is `erasing`. -/
theorem frameStep_fist_mode (s : State) (P : Point) :
    (frameStep Gesture.Fist s P).1.currentMode = "erasing" := by
  simp only [frameStep, branch, setMode, eraseAtPosition]
  split_ifs <;> simp_all

/-- C17. From any state with the erase tool inactive, two consecutive frames
classified as Fist with mapped points P1 and P2 succeed; the first emits no
surface primitive and the second exactly one segment P1 -> P2 in `#FFFFFF`
(the colour `clearDrawingCanvas` fills with), of width 2 x brushSize, with
round caps. The brush size is the one in force when the second frame runs:
if the size control is set to b between the two frames the width is 2 x b. -/
theorem erase_stroke (s0 : State) (l1 l2 : List Landmark) (P1 P2 : Point)
    (h0 : s0.isErasing = false)
    (g1 : gestureOf l1 = some Gesture.Fist) (g2 : gestureOf l2 = some Gesture.Fist)
    (p1 : mappedPoint s0 l1 = some P1) (p2 : mappedPoint s0 l2 = some P2) :
    (∃ s2 e1 e2,
      processFrames s0 [l1, l2] = some (s2, [e1, e2]) ∧
      e1.filter Event.isSurface = [] ∧
      e2 = [Event.stroke P1.x P1.y P2.x P2.y (2 * s0.brushSize) "#FFFFFF" "round"] ∧
      segments (e1 ++ e2) =
        [Event.stroke P1.x P1.y P2.x P2.y (2 * s0.brushSize) "#FFFFFF" "round"]) ∧
    (∃ s1 e1, processHandGesture s0 l1 = some (s1, e1) ∧
      ∀ b : ℤ, ∃ s2, processHandGesture (onBrushSizeInput s1 b) l2 =
        some (s2, [Event.stroke P1.x P1.y P2.x P2.y (2 * (b : ℚ)) "#FFFFFF" "round"])) ∧
    (clearDrawingCanvas s0).2.head? =
      some (Event.fillRect 0 0 s0.drawingWidth s0.drawingHeight "#FFFFFF") := by
  have d1 := processHandGesture_of s0 l1 _ _ g1 p1
  obtain ⟨a1, _, a3, a4, a5⟩ := frameStep_fist_up s0 P1 h0
  have am := frameStep_fist_mode s0 P1
  obtain ⟨_, _, _, _, c5, _⟩ := frameStep_config Gesture.Fist s0 P1
  have q2 : mappedPoint (frameStep Gesture.Fist s0 P1).1 l2 = some P2 := by
    rw [mappedPoint_frameStep]; exact p2
  have d2 := processHandGesture_of _ l2 _ _ g2 q2
  have b6 := frameStep_fist_down (frameStep Gesture.Fist s0 P1).1 P2 a1
  rw [setMode_same _ _ am, a3, a4, c5, mul_comm] at b6
  have hrun := processFrames_two _ _ _ _ _ d1 d2
  rw [b6] at hrun
  have hseg : segments ((frameStep Gesture.Fist s0 P1).2 ++
      (((frameStep Gesture.Fist s0 P1).1, ([] : List Event)).2 ++
        [Event.stroke P1.x P1.y P2.x P2.y (2 * s0.brushSize) "#FFFFFF" "round"])) =
      [Event.stroke P1.x P1.y P2.x P2.y (2 * s0.brushSize) "#FFFFFF" "round"] := by
    have hs := segments_eq_nil_of_surface _ a5
    simp only [segments, List.filter_append] at hs ⊢
    rw [hs]
    simp [Event.isSegment]
  have hbrush : ∀ b : ℤ, ∃ s2,
      processHandGesture (onBrushSizeInput (frameStep Gesture.Fist s0 P1).1 b) l2 =
        some (s2, [Event.stroke P1.x P1.y P2.x P2.y (2 * (b : ℚ)) "#FFFFFF" "round"]) := by
    intro b
    have q3 : mappedPoint (onBrushSizeInput (frameStep Gesture.Fist s0 P1).1 b) l2 = some P2 :=
      (mappedPoint_congr (frameStep Gesture.Fist s0 P1).1
        (onBrushSizeInput (frameStep Gesture.Fist s0 P1).1 b) l2 rfl rfl rfl rfl).trans q2
    have d3 := processHandGesture_of _ l2 _ _ g2 q3
    have b7 := frameStep_fist_down (onBrushSizeInput (frameStep Gesture.Fist s0 P1).1 b) P2 a1
    rw [setMode_same _ _ (show (onBrushSizeInput (frameStep Gesture.Fist s0 P1).1 b).currentMode
        = "erasing" from am)] at b7
    have hx : (onBrushSizeInput (frameStep Gesture.Fist s0 P1).1 b).lastX = P1.x := a3
    have hy : (onBrushSizeInput (frameStep Gesture.Fist s0 P1).1 b).lastY = P1.y := a4
    have hb : (onBrushSizeInput (frameStep Gesture.Fist s0 P1).1 b).brushSize = (b : ℚ) := rfl
    rw [hx, hy, hb, mul_comm] at b7
    refine ⟨(frameStep Gesture.Fist (onBrushSizeInput (frameStep Gesture.Fist s0 P1).1 b) P2).1,
      ?_⟩
    rw [d3]
    exact congrArg some (Prod.ext rfl b7)
  exact ⟨⟨_, _, _, hrun, a5, rfl, hseg⟩, ⟨_, _, d1, hbrush⟩, rfl⟩

/-- Witness for C17: a fist at (200,150) then at (400,300) from the initial
state (brush size 10): one white segment of width 20. -/
theorem erase_stroke_witness :
    initialState.isErasing = false ∧
    gestureOf (sampleHand false false false false false (1/4) (1/4)) = some Gesture.Fist ∧
    gestureOf (sampleHand false false false false false (1/2) (1/2)) = some Gesture.Fist ∧
    ∃ s2 e1 e2,
      processFrames initialState
        [sampleHand false false false false false (1/4) (1/4),
         sampleHand false false false false false (1/2) (1/2)] = some (s2, [e1, e2]) ∧
      e1.filter Event.isSurface = [] ∧
      e2 = [Event.stroke 200 150 400 300 (2 * 10) "#FFFFFF" "round"] ∧
      segments (e1 ++ e2) = [Event.stroke 200 150 400 300 (2 * 10) "#FFFFFF" "round"] :=
  ⟨rfl, by rw [gestureOf_sampleHand]; rfl, by rw [gestureOf_sampleHand]; rfl,
    (erase_stroke initialState _ _ ⟨200, 150⟩ ⟨400, 300⟩ rfl
      (by rw [gestureOf_sampleHand]; rfl) (by rw [gestureOf_sampleHand]; rfl)
      (by rw [mappedPoint_sampleHand]; norm_num)
      (by rw [mappedPoint_sampleHand]; norm_num)).1⟩

/-! ## C18: two hands in one frame -/

/-- C18 (amended). `onHandResults` passes the landmark sets of a frame in order to
`processHandGesture` on the one shared pen state, so the second hand is
processed in the state left by the first. In particular, from any state with
the draw tool inactive, one frame with two PeaceSign hands at mapped points A
and B succeeds, the first hand emits no surface primitive (it is the
pen-down) and the second hand emits exactly the segment A -> B. -/
theorem two_hands_share_pen (s : State) (handA handB : List Landmark) (A B : Point)
    (h0 : s.isDrawing = false)
    (gA : gestureOf handA = some Gesture.PeaceSign)
    (gB : gestureOf handB = some Gesture.PeaceSign)
    (pA : mappedPoint s handA = some A) (pB : mappedPoint s handB = some B) :
    (∃ s2 e1,
      onHandResults s (some [handA, handB]) =
        some (s2, [e1, [Event.stroke A.x A.y B.x B.y s.brushSize s.brushColor "round"]]) ∧
      e1.filter Event.isSurface = []) ∧
    (∃ s1 e1, processHandGesture s handA = some (s1, e1) ∧
      onHandResults s (some [handA, handB]) =
        (processHandGesture s1 handB).map fun r => (r.1, [e1, r.2])) ∧
    onHandResults s none = some (s, []) := by
  have d1 := processHandGesture_of s handA _ _ gA pA
  obtain ⟨a1, _, a3, a4, a5, _, a7⟩ := frameStep_peace_up s A h0
  obtain ⟨_, _, _, _, c5, c6⟩ := frameStep_config Gesture.PeaceSign s A
  have q2 : mappedPoint (frameStep Gesture.PeaceSign s A).1 handB = some B := by
    rw [mappedPoint_frameStep]; exact pB
  have d2 := processHandGesture_of _ handB _ _ gB q2
  obtain ⟨_, _, _, _, _, b6⟩ := frameStep_peace_down (frameStep Gesture.PeaceSign s A).1 B a1
  rw [setMode_same _ _ a5, a3, a4, c5, c6] at b6
  have hrun : onHandResults s (some [handA, handB]) = some
      ((frameStep Gesture.PeaceSign (frameStep Gesture.PeaceSign s A).1 B).1,
        [(frameStep Gesture.PeaceSign s A).2,
         [Event.stroke A.x A.y B.x B.y s.brushSize s.brushColor "round"]]) := by
    have h := processFrames_two _ _ _ _ _ d1 d2
    rw [b6] at h
    exact h
  have hsecond : onHandResults s (some [handA, handB]) =
      (processHandGesture (frameStep Gesture.PeaceSign s A).1 handB).map
        fun r => (r.1, [(frameStep Gesture.PeaceSign s A).2, r.2]) := by
    rw [d2]
    exact processFrames_two _ _ _ _ _ d1 d2
  exact ⟨⟨_, _, hrun, a7⟩, ⟨_, _, d1, hsecond⟩, rfl⟩

/-- Witness for C18 (amended): two PeaceSign hands at (200,150) and (600,450) in
one frame from the initial state. -/
theorem two_hands_share_pen_witness :
    initialState.isDrawing = false ∧
    gestureOf (sampleHand false true true false false (1/4) (1/4)) = some Gesture.PeaceSign ∧
    gestureOf (sampleHand false true true false false (3/4) (3/4)) = some Gesture.PeaceSign ∧
    ∃ s2 e1,
      onHandResults initialState
        (some [sampleHand false true true false false (1/4) (1/4),
               sampleHand false true true false false (3/4) (3/4)]) =
        some (s2, [e1, [Event.stroke 200 150 600 450 initialState.brushSize
          initialState.brushColor "round"]]) ∧
      e1.filter Event.isSurface = [] :=
  ⟨rfl, by rw [gestureOf_sampleHand]; rfl, by rw [gestureOf_sampleHand]; rfl,
    (two_hands_share_pen initialState _ _ ⟨200, 150⟩ ⟨600, 450⟩ rfl
      (by rw [gestureOf_sampleHand]; rfl) (by rw [gestureOf_sampleHand]; rfl)
      (by rw [mappedPoint_sampleHand]; norm_num)
      (by rw [mappedPoint_sampleHand]; norm_num)).1⟩

/-- C18 as stated fails: from the initial state (draw tool inactive) one frame
with two PeaceSign hands at (200,150) and (600,450) emits a segment, and it
joins the two hands; with the first hand at (400,300) instead, the same
second hand emits another segment, so what the second hand draws depends on
the first hand's landmarks. -/
theorem two_hands_counterexample :
    initialState.isDrawing = false ∧
    gestureOf (sampleHand false true true false false (1/4) (1/4)) = some Gesture.PeaceSign ∧
    gestureOf (sampleHand false true true false false (1/2) (1/2)) = some Gesture.PeaceSign ∧
    gestureOf (sampleHand false true true false false (3/4) (3/4)) = some Gesture.PeaceSign ∧
    (∃ s2 e1,
      onHandResults initialState
        (some [sampleHand false true true false false (1/4) (1/4),
               sampleHand false true true false false (3/4) (3/4)]) =
        some (s2, [e1, [Event.stroke 200 150 600 450 10 "#ff0000" "round"]])) ∧
    (∃ s2 e1,
      onHandResults initialState
        (some [sampleHand false true true false false (1/2) (1/2),
               sampleHand false true true false false (3/4) (3/4)]) =
        some (s2, [e1, [Event.stroke 400 300 600 450 10 "#ff0000" "round"]])) := by
  have key : ∀ cx cy : ℚ, ∃ s2 e1,
      onHandResults initialState
        (some [sampleHand false true true false false cx cy,
               sampleHand false true true false false (3/4) (3/4)]) =
        some (s2, [e1, [Event.stroke (800 * cx) (600 * cy) 600 450 10 "#ff0000" "round"]]) := by
    intro cx cy
    have d1 := processHandGesture_of initialState
      (sampleHand false true true false false cx cy) Gesture.PeaceSign ⟨800 * cx, 600 * cy⟩
      (by rw [gestureOf_sampleHand]; rfl) (mappedPoint_sampleHand _ _ _ _ _ _ _)
    have d2 := processHandGesture_of
      (frameStep Gesture.PeaceSign initialState ⟨800 * cx, 600 * cy⟩).1
      (sampleHand false true true false false (3/4) (3/4)) Gesture.PeaceSign ⟨600, 450⟩
      (by rw [gestureOf_sampleHand]; rfl)
      (by rw [mappedPoint_frameStep, mappedPoint_sampleHand]; norm_num)
    have h := processFrames_two _ _ _ _ _ d1 d2
    have h2 : (frameStep Gesture.PeaceSign
        (frameStep Gesture.PeaceSign initialState ⟨800 * cx, 600 * cy⟩).1 ⟨600, 450⟩).2 =
        [Event.stroke (800 * cx) (600 * cy) 600 450 10 "#ff0000" "round"] := by
      simp [frameStep, branch, setMode, drawAtPosition, startDrawing, initialState]
    rw [h2] at h
    exact ⟨_, _, h⟩
  refine ⟨rfl, by rw [gestureOf_sampleHand]; rfl, by rw [gestureOf_sampleHand]; rfl,
    by rw [gestureOf_sampleHand]; rfl, ?_, ?_⟩
  · have h := key (1/4) (1/4)
    norm_num at h
    exact h
  · have h := key (1/2) (1/2)
    norm_num at h
    exact h

/-! ## C19: the anchor tracks the last frame -/

/-- Every segment a frame emits starts at the anchor the frame found. -/
theorem stroke_starts_at_anchor (g : Gesture) (s : State) (P : Point) :
    ∀ e ∈ (frameStep g s P).2, ∀ x1 y1 x2 y2 w c cap,
      e = Event.stroke x1 y1 x2 y2 w c cap → x1 = s.lastX ∧ y1 = s.lastY := by
  cases g <;>
    simp only [frameStep, branch, setMode, drawAtPosition, eraseAtPosition, drawPoint,
      clearDrawingCanvas, stopDrawing, startDrawing] <;>
    first
      | (split_ifs <;> simp <;> intros <;> simp_all)
      | simp

/-- With 21 points or more, the frame has a gesture and a mapped point. -/
theorem frame_defined (s : State) (landmarks : List Landmark) (h : 21 ≤ landmarks.length) :
    ∃ g P, gestureOf landmarks = some g ∧ mappedPoint s landmarks = some P := by
  obtain ⟨fingers, hf⟩ := getFingersUp_isSome landmarks h
  have hp : ∃ P, mappedPoint s landmarks = some P := by
    rw [mappedPoint, getHandCenter_eq s landmarks h]
    exact ⟨_, rfl⟩
  obtain ⟨P, hp⟩ := hp
  exact ⟨classify fingers, P, by rw [gestureOf, hf]; rfl, hp⟩

/-- C19. For every state and every set of 21 landmarks, whatever the gesture,
`processHandGesture` returns and leaves (`lastX`, `lastY`) equal to the
frame's mapped point; hence every segment emitted by the frame processed
next starts exactly at the mapped point of this frame. -/
theorem anchor_tracks_frame (s : State) (l1 l2 : List Landmark)
    (h1 : l1.length = 21) (h2 : l2.length = 21) :
    ∃ g1 P1 s1 e1,
      gestureOf l1 = some g1 ∧ mappedPoint s l1 = some P1 ∧
      processHandGesture s l1 = some (s1, e1) ∧
      s1.lastX = P1.x ∧ s1.lastY = P1.y ∧
      ∃ s2 e2, processHandGesture s1 l2 = some (s2, e2) ∧
        ∀ e ∈ e2, ∀ x1 y1 x2 y2 w c cap,
          e = Event.stroke x1 y1 x2 y2 w c cap → x1 = P1.x ∧ y1 = P1.y := by
  obtain ⟨g1, P1, hg1, hp1⟩ := frame_defined s l1 (by omega)
  have d1 := processHandGesture_of s l1 g1 P1 hg1 hp1
  obtain ⟨g2, P2, hg2, hp2⟩ := frame_defined (frameStep g1 s P1).1 l2 (by omega)
  have d2 := processHandGesture_of _ l2 g2 P2 hg2 hp2
  have hx : (frameStep g1 s P1).1.lastX = P1.x := rfl
  have hy : (frameStep g1 s P1).1.lastY = P1.y := rfl
  refine ⟨g1, P1, (frameStep g1 s P1).1, (frameStep g1 s P1).2, hg1, hp1, d1, hx, hy,
    (frameStep g2 (frameStep g1 s P1).1 P2).1, (frameStep g2 (frameStep g1 s P1).1 P2).2, d2, ?_⟩
  intro e he x1 y1 x2 y2 w c cap heq
  have := stroke_starts_at_anchor g2 (frameStep g1 s P1).1 P2 e he x1 y1 x2 y2 w c cap heq
  rw [hx, hy] at this
  exact this

/-- Witness for C19: a thumbs-up hand at (400,300) then a PeaceSign hand, from
the initial state. -/
theorem anchor_tracks_frame_witness :
    (sampleHand true false false false false (1/2) (1/2)).length = 21 ∧
    (sampleHand false true true false false (3/4) (3/4)).length = 21 ∧
    ∃ g1 P1 s1 e1,
      gestureOf (sampleHand true false false false false (1/2) (1/2)) = some g1 ∧
      mappedPoint initialState (sampleHand true false false false false (1/2) (1/2)) =
        some P1 ∧
      processHandGesture initialState (sampleHand true false false false false (1/2) (1/2)) =
        some (s1, e1) ∧
      s1.lastX = P1.x ∧ s1.lastY = P1.y ∧
      ∃ s2 e2, processHandGesture s1 (sampleHand false true true false false (3/4) (3/4)) =
          some (s2, e2) ∧
        ∀ e ∈ e2, ∀ x1 y1 x2 y2 w c cap,
          e = Event.stroke x1 y1 x2 y2 w c cap → x1 = P1.x ∧ y1 = P1.y :=
  ⟨rfl, rfl, anchor_tracks_frame initialState _ _ rfl rfl⟩

/-! ## C20: the mapped point stays on the surface -/

/-- C20. For every set of 21 landmarks whose six palm-base landmarks have x and
y in [0,1], with non-zero tracking-frame sizes (so for 640 x 480) and the
800 x 600 surface, the point `processHandGesture` works with is
(800 x mean of the six x, 600 x mean of the six y); it satisfies
0 <= x <= 800 and 0 <= y <= 600, and it is the same for every other non-zero
tracking-frame size. -/
theorem mapped_point_on_surface (s : State) (landmarks : List Landmark)
    (h : landmarks.length = 21)
    (hW : s.handWidth ≠ 0) (hH : s.handHeight ≠ 0)
    (hdw : s.drawingWidth = 800) (hdh : s.drawingHeight = 600)
    (hrange : ∀ i ∈ palmPoints, ∀ p, landmarks[i]? = some p →
      0 ≤ p.x ∧ p.x ≤ 1 ∧ 0 ≤ p.y ∧ p.y ≤ 1) :
    ∃ g P,
      processHandGesture s landmarks = some (frameStep g s P) ∧
      mappedPoint s landmarks = some P ∧
      P.x = 800 * ((landmarks[0].x + landmarks[1].x + landmarks[5].x + landmarks[9].x +
        landmarks[13].x + landmarks[17].x) / 6) ∧
      P.y = 600 * ((landmarks[0].y + landmarks[1].y + landmarks[5].y + landmarks[9].y +
        landmarks[13].y + landmarks[17].y) / 6) ∧
      0 ≤ P.x ∧ P.x ≤ 800 ∧ 0 ≤ P.y ∧ P.y ≤ 600 ∧
      ∀ t : State, t.handWidth ≠ 0 → t.handHeight ≠ 0 →
        t.drawingWidth = 800 → t.drawingHeight = 600 → mappedPoint t landmarks = some P := by
  have key : ∀ t : State, t.handWidth ≠ 0 → t.handHeight ≠ 0 →
      t.drawingWidth = 800 → t.drawingHeight = 600 →
      mappedPoint t landmarks = some
        { x := 800 * ((landmarks[0].x + landmarks[1].x + landmarks[5].x + landmarks[9].x +
            landmarks[13].x + landmarks[17].x) / 6),
          y := 600 * ((landmarks[0].y + landmarks[1].y + landmarks[5].y + landmarks[9].y +
            landmarks[13].y + landmarks[17].y) / 6) } := by
    intro t tW tH tdw tdh
    rw [mappedPoint, getHandCenter_eq t landmarks (by omega)]
    simp only [Option.map_some', Option.some.injEq, Point.mk.injEq, tdw, tdh]
    constructor <;> (field_simp; ring)
  have r : ∀ i (hi : i ∈ palmPoints) (hlt : i < landmarks.length),
      0 ≤ landmarks[i].x ∧ landmarks[i].x ≤ 1 ∧ 0 ≤ landmarks[i].y ∧ landmarks[i].y ≤ 1 :=
    fun i hi hlt => hrange i hi _ (List.getElem?_eq_getElem hlt)
  obtain ⟨a0, b0, c0, d0⟩ := r 0 (by decide) (by omega)
  obtain ⟨a1, b1, c1, d1⟩ := r 1 (by decide) (by omega)
  obtain ⟨a5, b5, c5, d5⟩ := r 5 (by decide) (by omega)
  obtain ⟨a9, b9, c9, d9⟩ := r 9 (by decide) (by omega)
  obtain ⟨a13, b13, c13, d13⟩ := r 13 (by decide) (by omega)
  obtain ⟨a17, b17, c17, d17⟩ := r 17 (by decide) (by omega)
  obtain ⟨g, P, hg, hp⟩ := frame_defined s landmarks (by omega)
  have hP := key s hW hH hdw hdh
  rw [hp] at hP
  have hPe := Option.some.inj hP
  refine ⟨g, P, processHandGesture_of s landmarks g P hg hp, hp, ?_, ?_, ?_, ?_, ?_, ?_, ?_⟩
  · rw [hPe]
  · rw [hPe]
  · rw [hPe]; show (0 : ℚ) ≤ 800 * _; linarith
  · rw [hPe]; show 800 * _ ≤ (800 : ℚ); linarith
  · rw [hPe]; show (0 : ℚ) ≤ 600 * _; linarith
  · rw [hPe]; show 600 * _ ≤ (600 : ℚ); linarith
  · intro t tW tH tdw tdh
    rw [hP]
    exact key t tW tH tdw tdh

/-- Witness for C20: a PeaceSign hand with the palm at (1/2, 1/4) in the
initial state (640 x 480 frame, 800 x 600 surface): the point is (400, 150). -/
theorem mapped_point_on_surface_witness :
    (sampleHand false true true false false (1/2) (1/4)).length = 21 ∧
    initialState.handWidth ≠ 0 ∧ initialState.handHeight ≠ 0 ∧
    initialState.drawingWidth = 800 ∧ initialState.drawingHeight = 600 ∧
    ∃ g P,
      processHandGesture initialState (sampleHand false true true false false (1/2) (1/4)) =
        some (frameStep g initialState P) ∧
      mappedPoint initialState (sampleHand false true true false false (1/2) (1/4)) = some P ∧
      0 ≤ P.x ∧ P.x ≤ 800 ∧ 0 ≤ P.y ∧ P.y ≤ 600 :=
  have hW : initialState.handWidth ≠ 0 := by simp [initialState]
  have hH : initialState.handHeight ≠ 0 := by simp [initialState]
  have h := mapped_point_on_surface initialState
    (sampleHand false true true false false (1/2) (1/4)) rfl hW hH rfl rfl
    (by
      intro i hi p hp
      simp only [palmPoints, List.mem_cons, List.mem_singleton, List.not_mem_nil, or_false] at hi
      rcases hi with rfl | rfl | rfl | rfl | rfl | rfl <;>
        simp [sampleHand] at hp <;> subst hp <;> norm_num)
  ⟨rfl, hW, hH, rfl, rfl,
    h.elim fun g hg => hg.elim fun P hP =>
      ⟨g, P, hP.1, hP.2.1, hP.2.2.2.2.1, hP.2.2.2.2.2.1, hP.2.2.2.2.2.2.1,
        hP.2.2.2.2.2.2.2.1⟩⟩

end HandGesture
